import Mathlib

/-!
Verification of the turn-based combat engine (damage formulas, skill
execution, and the combat-session state machine) against its
natural-language specification.  The Python modules `src/combat/damage.py`,
`src/combat/skills.py` and `src/web/combat_routes.py` are shallowly
embedded: machine numbers become `Int`/`Rat` (Python ints are unbounded;
float arithmetic on the small decimal constants involved is exact in `Rat`),
`random.random()` draws become an explicit oracle `Nat -> Rat` threaded with
a counter, and object mutation becomes explicit state passing.
-/

/-- Python `int(x)` truncates toward zero. -/
def pytrunc (q : ℚ) : ℤ := if 0 ≤ q then ⌊q⌋ else ⌈q⌉


namespace Combat

/-! ## Embedding of `src/combat/damage.py` -/

/-- `class Element(Enum)` from `damage.py`. -/
inductive Element where
  | WIND | FIRE | WOOD | VOID | LIGHTNING | ICE | SOUND | BLOOD
  | PHYSICAL | NONE
deriving DecidableEq, Repr

/-- `class DamageType(Enum)` from `damage.py`. -/
inductive DamageType where
  | PHYSICAL | MAGIC | TRUE
deriving DecidableEq, Repr

/-- `ELEMENT_COUNTERS` dict from `damage.py`, as a total function:
`ELEMENT_COUNTERS.get(e, [])` returns `[]` for the unlisted elements
(`PHYSICAL`, `NONE`).  The comments in the source read the table as
"key counters the listed elements" (wind counters wood and sound, ...). -/
def ELEMENT_COUNTERS : Element → List Element
  | .WIND => [.WOOD, .SOUND]
  | .FIRE => [.WOOD, .ICE]
  | .WOOD => [.FIRE, .BLOOD]
  | .VOID => [.LIGHTNING, .WIND]
  | .LIGHTNING => [.WOOD, .SOUND]
  | .ICE => [.FIRE, .WIND]
  | .SOUND => [.VOID, .LIGHTNING]
  | .BLOOD => [.WOOD, .VOID]
  | .PHYSICAL => []
  | .NONE => []

/-- `get_element_multiplier` from `damage.py`, verbatim: 1.5 when the
attacker's element appears in the defender's counter list, 0.75 when the
defender's element appears in the attacker's counter list, 1.0 otherwise. -/
def get_element_multiplier (attacker_element defender_element : Element) : ℚ :=
  if attacker_element = Element.NONE ∨ defender_element = Element.NONE then 1
  else if attacker_element ∈ ELEMENT_COUNTERS defender_element then 3/2
  else if defender_element ∈ ELEMENT_COUNTERS attacker_element then 3/4
  else 1

/-- Names usable as `scaling_stat` strings.  `accuracy` is requested by one
registry skill but is not an attribute of `CombatUnit`, so `getattr`'s
default 10 applies there. -/
inductive StatName where
  | attack | defense | magic_attack | magic_resist | speed | intellect
  | dodge_rate | accuracy
deriving DecidableEq, Repr

/-- One entry of a `CombatUnit`'s `buffs`/`debuffs` list: the dicts
`{"buff_id"/"debuff_id": ..., "duration": ..., "value": ...}` appended by
`SkillExecutor.apply_effects`. -/
structure BuffEntry where
  id : Option String
  duration : ℤ
  value : ℤ
deriving DecidableEq, Repr

/-- `@dataclass class CombatUnit` from `skills.py` (also the duck-typed
attacker/defender shape read by `DamageCalculator`). -/
structure CombatUnit where
  unit_id : String
  name : String
  level : ℤ := 1
  hp : ℤ := 100
  max_hp : ℤ := 100
  mp : ℤ := 50
  max_mp : ℤ := 50
  attack : ℤ := 20
  defense : ℤ := 10
  magic_attack : ℤ := 15
  magic_resist : ℤ := 8
  speed : ℤ := 10
  intellect : ℤ := 10
  crit_rate : ℚ := 5/100
  crit_damage : ℚ := 3/2
  dodge_rate : ℚ := 5/100
  element : Option Element := none
  buffs : List BuffEntry := []
  debuffs : List BuffEntry := []
  is_dead : Bool := false
  healing_received : ℚ := 1
deriving DecidableEq, Repr

/-- `getattr(unit, scaling_stat, 10)`:  the named numeric attribute, with
Python's default 10 for the one name (`accuracy`) `CombatUnit` lacks. -/
def getStat (u : CombatUnit) : StatName → ℚ
  | .attack => u.attack
  | .defense => u.defense
  | .magic_attack => u.magic_attack
  | .magic_resist => u.magic_resist
  | .speed => u.speed
  | .intellect => u.intellect
  | .dodge_rate => u.dodge_rate
  | .accuracy => 10

/-- `@dataclass class DamageResult` from `damage.py`. -/
structure DamageResult where
  damage : ℤ
  is_crit : Bool
  element : Element
  damage_type : DamageType
  element_multiplier : ℚ := 1
  blocked : Bool := false
  dodged : Bool := false
deriving DecidableEq, Repr

/-- `DamageCalculator.calculate_damage` from `damage.py`.  The two
`random.random()` draws are supplied by the oracle `ρ` at the running index
`k`; the dodge draw is always consumed, the crit draw only on a non-dodged
hit, and the new index is returned alongside the result. -/
def calculate_damage (attacker defender : CombatUnit) (element : Element)
    (damage_type : DamageType) (base_value : ℤ) (scaling_stat : StatName)
    (scaling_multiplier : ℚ) (ρ : ℕ → ℚ) (k : ℕ) : DamageResult × ℕ :=
  if ρ k < defender.dodge_rate then
    ({ damage := 0, is_crit := false, element := element,
       damage_type := damage_type, dodged := true }, k + 1)
  else
    let defense_stat : ℚ :=
      if damage_type = DamageType.PHYSICAL then defender.defense
      else defender.magic_resist
    let scaling_value := getStat attacker scaling_stat
    let base_damage : ℚ := base_value + scaling_value * scaling_multiplier
    let effective_defense : ℚ := defense_stat * (1/2)
    let damage₁ : ℤ := max 1 (pytrunc (base_damage - effective_defense))
    let damage₂ : ℤ :=
      if damage_type = DamageType.TRUE then pytrunc base_damage else damage₁
    let defender_element := defender.element.getD Element.NONE
    let element_multiplier := get_element_multiplier element defender_element
    let damage₃ : ℤ := pytrunc (damage₂ * element_multiplier)
    let is_crit := ρ (k + 1) < attacker.crit_rate
    let damage₄ : ℤ :=
      if is_crit then pytrunc (damage₃ * attacker.crit_damage) else damage₃
    ({ damage := damage₄, is_crit := is_crit, element := element,
       damage_type := damage_type, element_multiplier := element_multiplier },
     k + 2)

/-- `DamageCalculator.calculate_healing` from `damage.py`. -/
def calculate_healing (caster target : CombatUnit) (base_value : ℤ)
    (scaling_stat : StatName) (scaling_multiplier : ℚ) : ℤ :=
  let scaling_value := getStat caster scaling_stat
  let base_heal : ℚ := base_value + scaling_value * scaling_multiplier
  let healing_bonus := target.healing_received
  max 1 (pytrunc (base_heal * healing_bonus))

/-! ## Embedding of `src/combat/skills.py` -/

/-- `class SkillType(Enum)`. -/
inductive SkillType where
  | ACTIVE | PASSIVE | TOGGLE | TRIGGER
deriving DecidableEq, Repr

/-- `class SkillTarget(Enum)`. -/
inductive SkillTarget where
  | SELF | SINGLE_ENEMY | ALL_ENEMIES | SINGLE_ALLY | ALL_ALLIES
deriving DecidableEq, Repr

/-- `@dataclass class SkillEffect`.  `effect_type` is the source's string
tag ("damage", "heal", "buff", "debuff"). -/
structure SkillEffect where
  effect_type : String
  value_base : ℤ
  value_scaling : ℚ
  scaling_stat : StatName
  element : Option Element := none
  buff_id : Option String := none
  debuff_id : Option String := none
  duration : ℤ := 0
  hit_count : ℤ := 1
deriving DecidableEq, Repr

/-- `@dataclass class CombatAction`. -/
structure CombatAction where
  action_type : String
  caster_id : String
  target_id : String
  skill_id : String
  value : ℤ := 0
  element : Option Element := none
  is_crit : Bool := false
  buff_id : Option String := none
  duration : ℤ := 0
deriving DecidableEq, Repr

/-- `class CombatSkill.__init__`; `current_cooldown` starts at 0. -/
structure CombatSkill where
  skill_id : String
  name : String
  description : String
  skill_type : SkillType
  target_type : SkillTarget
  mp_cost : ℤ := 0
  hp_cost : ℤ := 0
  cooldown : ℤ := 0
  current_cooldown : ℤ := 0
  effects : List SkillEffect := []
  required_level : ℤ := 1
  required_stage : Option String := none
  required_sect : Option String := none
  element : Option Element := none
deriving DecidableEq, Repr

namespace CombatSkill

/-- `CombatSkill.can_use`. -/
def can_use (s : CombatSkill) (caster_mp caster_hp : ℤ) : Bool :=
  if s.current_cooldown > 0 then false
  else if caster_mp < s.mp_cost then false
  else if caster_hp < s.hp_cost then false
  else true

/-- `CombatSkill.apply_cooldown`. -/
def apply_cooldown (s : CombatSkill) : CombatSkill :=
  { s with current_cooldown := s.cooldown }

/-- `CombatSkill.reduce_cooldown`. -/
def reduce_cooldown (s : CombatSkill) : CombatSkill :=
  if s.current_cooldown > 0 then
    { s with current_cooldown := s.current_cooldown - 1 }
  else s

/-- `CombatSkill.clone`: a value copy (the constructor call with the same
scalar fields, `copy.deepcopy(self.effects)` and the same
`current_cooldown`).  In the value semantics used here a deep copy is just
the value itself; the sharing-sensitive behaviour of `clone` is modelled
separately on an explicit object store below. -/
def clone (s : CombatSkill) : CombatSkill :=
  { s with effects := s.effects }

end CombatSkill

/-- `SKILL_REGISTRY`: the fifteen `register_skill(CombatSkill(...))` calls
of `skills.py`, in registration order (ids are distinct, so the dict is
this association-by-`skill_id` list). -/
def SKILL_REGISTRY : List CombatSkill :=
  [ { skill_id := "qingyun_sword_qi", name := "青云剑气",
      description := "凝聚青云真气，挥出强劲剑气，对单体敌人造成风属性伤害",
      skill_type := .ACTIVE, target_type := .SINGLE_ENEMY, mp_cost := 10,
      cooldown := 0,
      effects :=
        [ { effect_type := "damage", value_base := 30,
            value_scaling := 12/10, scaling_stat := .attack,
            element := some .WIND } ],
      required_sect := some "青云门", element := some .WIND },
    { skill_id := "feng_xing_shu", name := "风行术",
      description := "借助风力提升自身速度",
      skill_type := .ACTIVE, target_type := .SELF, mp_cost := 15,
      cooldown := 3,
      effects :=
        [ { effect_type := "buff", value_base := 20,
            value_scaling := 0, scaling_stat := .speed,
            buff_id := some "speed_boost", duration := 3 } ],
      required_sect := some "青云门", element := some .WIND },
    { skill_id := "yu_feng_sword_jue", name := "御风剑诀",
      description := "御风而行，连续挥出多道剑气",
      skill_type := .ACTIVE, target_type := .SINGLE_ENEMY, mp_cost := 25,
      cooldown := 2,
      effects :=
        [ { effect_type := "damage", value_base := 20,
            value_scaling := 8/10, scaling_stat := .attack,
            element := some .WIND, hit_count := 3 } ],
      required_level := 10, required_sect := some "青云门",
      element := some .WIND },
    { skill_id := "sanmei_zhenhuo", name := "三昧真火",
      description := "凝聚体内真火，对单体敌人造成火属性伤害",
      skill_type := .ACTIVE, target_type := .SINGLE_ENEMY, mp_cost := 15,
      cooldown := 0,
      effects :=
        [ { effect_type := "damage", value_base := 35,
            value_scaling := 15/10, scaling_stat := .magic_attack,
            element := some .FIRE } ],
      required_sect := some "丹鼎门", element := some .FIRE },
    { skill_id := "yan_long_shu", name := "炎龙术",
      description := "召唤炎龙之魂，对全体敌人造成火属性伤害",
      skill_type := .ACTIVE, target_type := .ALL_ENEMIES, mp_cost := 30,
      cooldown := 3,
      effects :=
        [ { effect_type := "damage", value_base := 40,
            value_scaling := 12/10, scaling_stat := .magic_attack,
            element := some .FIRE } ],
      required_level := 10, required_sect := some "丹鼎门",
      element := some .FIRE },
    { skill_id := "hui_chun_dan", name := "回春丹",
      description := "炼制回春丹，恢复友方生命值",
      skill_type := .ACTIVE, target_type := .SINGLE_ALLY, mp_cost := 20,
      cooldown := 2,
      effects :=
        [ { effect_type := "heal", value_base := 50,
            value_scaling := 1, scaling_stat := .intellect } ],
      required_sect := some "丹鼎门" },
    { skill_id := "wanhua_yishu", name := "万花医术",
      description := "施展万花谷秘传医术，强力恢复友方生命值",
      skill_type := .ACTIVE, target_type := .SINGLE_ALLY, mp_cost := 25,
      cooldown := 2,
      effects :=
        [ { effect_type := "heal", value_base := 80,
            value_scaling := 15/10, scaling_stat := .intellect } ],
      required_sect := some "万花谷", element := some .WOOD },
    { skill_id := "du_wu", name := "毒雾",
      description := "释放毒雾，对全体敌人施加中毒效果",
      skill_type := .ACTIVE, target_type := .ALL_ENEMIES, mp_cost := 20,
      cooldown := 3,
      effects :=
        [ { effect_type := "debuff", value_base := 15,
            value_scaling := 5/10, scaling_stat := .magic_attack,
            element := some .WOOD, debuff_id := some "poison", duration := 3 } ],
      required_level := 5, required_sect := some "万花谷",
      element := some .WOOD },
    { skill_id := "hua_ling_zhaohuan", name := "花灵召唤",
      description := "召唤花灵协助战斗，对敌人造成持续伤害",
      skill_type := .ACTIVE, target_type := .SINGLE_ENEMY, mp_cost := 30,
      cooldown := 4,
      effects :=
        [ { effect_type := "damage", value_base := 25,
            value_scaling := 8/10, scaling_stat := .magic_attack,
            element := some .WOOD, debuff_id := some "flower_curse",
            duration := 3 } ],
      required_level := 15, required_sect := some "万花谷",
      element := some .WOOD },
    { skill_id := "xiaoyao_bu", name := "逍遥步",
      description := "施展逍遥步法，提升自身闪避率",
      skill_type := .ACTIVE, target_type := .SELF, mp_cost := 12,
      cooldown := 3,
      effects :=
        [ { effect_type := "buff", value_base := 30,
            value_scaling := 0, scaling_stat := .dodge_rate,
            buff_id := some "dodge_boost", duration := 3 } ],
      required_sect := some "逍遥宗", element := some .VOID },
    { skill_id := "xukong_zhan", name := "虚空斩",
      description := "斩破虚空，对单体敌人造成高伤害",
      skill_type := .ACTIVE, target_type := .SINGLE_ENEMY, mp_cost := 30,
      cooldown := 2,
      effects :=
        [ { effect_type := "damage", value_base := 60,
            value_scaling := 2, scaling_stat := .attack,
            element := some .VOID } ],
      required_level := 10, required_sect := some "逍遥宗",
      element := some .VOID },
    { skill_id := "huan_jing", name := "幻境",
      description := "制造幻境，使敌人陷入困惑状态",
      skill_type := .ACTIVE, target_type := .SINGLE_ENEMY, mp_cost := 25,
      cooldown := 4,
      effects :=
        [ { effect_type := "debuff", value_base := 20,
            value_scaling := 0, scaling_stat := .accuracy,
            debuff_id := some "confusion", duration := 2 } ],
      required_level := 15, required_sect := some "逍遥宗",
      element := some .VOID },
    { skill_id := "shushan_swordfa", name := "蜀山剑法",
      description := "蜀山派基础剑法，造成物理伤害",
      skill_type := .ACTIVE, target_type := .SINGLE_ENEMY, mp_cost := 8,
      cooldown := 0,
      effects :=
        [ { effect_type := "damage", value_base := 40,
            value_scaling := 15/10, scaling_stat := .attack,
            element := some .PHYSICAL } ],
      required_sect := some "蜀山派", element := some .LIGHTNING },
    { skill_id := "zixiao_shenlei", name := "紫霄神雷",
      description := "召唤紫霄神雷，对全体敌人造成雷属性伤害",
      skill_type := .ACTIVE, target_type := .ALL_ENEMIES, mp_cost := 35,
      cooldown := 4,
      effects :=
        [ { effect_type := "damage", value_base := 50,
            value_scaling := 13/10, scaling_stat := .magic_attack,
            element := some .LIGHTNING } ],
      required_level := 10, required_sect := some "蜀山派",
      element := some .LIGHTNING },
    { skill_id := "wanjian_guizong", name := "万剑归宗",
      description := "蜀山派终极剑诀，召唤万千飞剑",
      skill_type := .ACTIVE, target_type := .ALL_ENEMIES, mp_cost := 50,
      cooldown := 6,
      effects :=
        [ { effect_type := "damage", value_base := 80,
            value_scaling := 2, scaling_stat := .attack,
            element := some .LIGHTNING, hit_count := 5 } ],
      required_level := 30, required_sect := some "蜀山派",
      element := some .LIGHTNING } ]

/-! ### Object-store model of skill templates and clones

`SKILL_REGISTRY` holds shared Python objects, and `get_skill` hands out
`clone()`s.  To make the sharing claims meaningful, skill objects live in
an explicit store: a `SkillObj` is the object's attribute record plus a
reference (`effectsRef`) to the list object its `effects` attribute points
at.  `clone()` copies the attribute record and allocates a fresh list cell
holding a value copy of the effect list (`copy.deepcopy`, which also copies
the `SkillEffect` elements — here list cells hold element values, so a cell
copy is a deep copy). -/

/-- A `CombatSkill` Python object in the store: its attribute record
(`data`; the `effects` component inside `data` is not used by the store
model) and the reference held by `self.effects`. -/
structure SkillObj where
  data : CombatSkill
  effectsRef : ℕ
deriving DecidableEq, Repr

/-- The object store: skill objects and effect-list objects, addressed by
position; allocation appends. -/
structure SkillHeap where
  skills : List SkillObj
  effectLists : List (List SkillEffect)
deriving DecidableEq, Repr

def dummySkillObj : SkillObj :=
  { data := { skill_id := "", name := "", description := "",
              skill_type := .ACTIVE, target_type := .SELF },
    effectsRef := 0 }

/-- Allocate a freshly constructed skill (a `register_skill` call): the
constructor stores the given effect list as a new list object. -/
def allocSkill (h : SkillHeap) (sk : CombatSkill) : ℕ × SkillHeap :=
  (h.skills.length,
   { skills := h.skills ++ [{ data := sk, effectsRef := h.effectLists.length }],
     effectLists := h.effectLists ++ [sk.effects] })

/-- `CombatSkill.clone` on the store: a new object with the same attribute
record (including `current_cooldown`) whose `effects` is a fresh deep copy
of the template's list. -/
def cloneAt (h : SkillHeap) (a : ℕ) : ℕ × SkillHeap :=
  let o := h.skills.getD a dummySkillObj
  (h.skills.length,
   { skills := h.skills ++
       [{ data := o.data, effectsRef := h.effectLists.length }],
     effectLists := h.effectLists ++ [h.effectLists.getD o.effectsRef []] })

/-- Write `obj.current_cooldown = v` at address `a`. -/
def setCurrentCooldown (h : SkillHeap) (a : ℕ) (v : ℤ) : SkillHeap :=
  let o := h.skills.getD a dummySkillObj
  let o' := { o with data := { o.data with current_cooldown := v } }
  { h with skills := h.skills.set a o' }

/-- Mutate the effect-list object at reference `r` (e.g. rewriting one of
its `SkillEffect` elements). -/
def setEffectList (h : SkillHeap) (r : ℕ) (l : List SkillEffect) : SkillHeap :=
  { h with effectLists := h.effectLists.set r l }

/-- The store and address table produced by the module-level
`register_skill` calls. -/
def buildRegistryHeap : SkillHeap × List (String × ℕ) :=
  SKILL_REGISTRY.foldl
    (fun (acc : SkillHeap × List (String × ℕ)) sk =>
      let (a, h) := allocSkill acc.1 sk
      (h, acc.2 ++ [(sk.skill_id, a)]))
    ({ skills := [], effectLists := [] }, [])

def registryHeap : SkillHeap := buildRegistryHeap.1

def registryAddrs : List (String × ℕ) := buildRegistryHeap.2

/-- `get_skill`: look the id up in the registry and return a clone's
address (or `None` for unknown ids). -/
def get_skill (skill_id : String) (h : SkillHeap) : Option ℕ × SkillHeap :=
  match registryAddrs.find? (fun p => p.1 = skill_id) with
  | some p => let (a', h') := cloneAt h p.2; (some a', h')
  | none => (none, h)

/-- The mutable state touched by `SkillExecutor.execute_skill`: the caster
object and the candidate targets list (the Python objects are updated in
place; here they are threaded). -/
structure EffState where
  caster : CombatUnit
  targets : List CombatUnit
deriving DecidableEq, Repr

/-- A reference to one of the Python objects a skill may act on: either the
caster object itself or a position in the candidate-targets list.  This
captures the aliasing of `_select_targets`' results (e.g. `SELF` returns
the caster object, so effects applied to it are seen on the caster). -/
inductive TargetRef where
  | caster
  | idx (i : ℕ)
deriving DecidableEq, Repr

def dummyUnit : CombatUnit := { unit_id := "", name := "" }

/-- Dereference a target.  Indices produced by `select_targets` are always
in range, so the default is never reached on the source's behaviours. -/
def readRef (st : EffState) : TargetRef → CombatUnit
  | .caster => st.caster
  | .idx i => st.targets.getD i dummyUnit

def writeRef (st : EffState) : TargetRef → CombatUnit → EffState
  | .caster, u => { st with caster := u }
  | .idx i, u => { st with targets := st.targets.set i u }

/-- Indices of the living candidates, mirroring
`[t for t in available_targets if not t.is_dead]`. -/
def aliveIdxs (targets : List CombatUnit) : List ℕ :=
  (List.range targets.length).filter
    (fun i => ¬ (targets.getD i dummyUnit).is_dead)

/-- `SkillExecutor._select_targets`. -/
def select_targets (skill : CombatSkill) (st : EffState) : List TargetRef :=
  match skill.target_type with
  | .SELF => [.caster]
  | .SINGLE_ENEMY => ((aliveIdxs st.targets).take 1).map .idx
  | .ALL_ENEMIES => (aliveIdxs st.targets).map .idx
  | .SINGLE_ALLY =>
      if aliveIdxs st.targets ≠ [] then
        ((aliveIdxs st.targets).take 1).map .idx
      else [.caster]
  | .ALL_ALLIES => .caster :: (aliveIdxs st.targets).map .idx

/-- `SkillExecutor.apply_effects`: folds the ordered effect list into one
accumulated `CombatAction`, mutating the target (and, for a `SELF` ref,
the caster) through the threaded state. -/
def apply_effects (effects : List SkillEffect) (st : EffState)
    (ref : TargetRef) (ρ : ℕ → ℚ) (k : ℕ) : CombatAction × EffState × ℕ :=
  let primary_effect_type :=
    ((effects.head?.map (·.effect_type)).getD "damage")
  let element := (effects.head?.map (·.element)).getD none
  let step := fun (acc : ℤ × Bool × EffState × ℕ) (effect : SkillEffect) =>
    let (total_value, is_crit, st, k) := acc
    if effect.effect_type = "damage" then
      let damage_type :=
        if effect.element = some Element.PHYSICAL then DamageType.PHYSICAL
        else DamageType.MAGIC
      let (result, k) := calculate_damage st.caster (readRef st ref)
        (effect.element.getD Element.PHYSICAL) damage_type effect.value_base
        effect.scaling_stat effect.value_scaling ρ k
      let total_damage := result.damage * effect.hit_count
      let t := readRef st ref
      let t := { t with hp := max 0 (t.hp - total_damage) }
      let t := if t.hp ≤ 0 then { t with is_dead := true } else t
      (total_value + total_damage, result.is_crit, writeRef st ref t, k)
    else if effect.effect_type = "heal" then
      let heal_value := calculate_healing st.caster (readRef st ref)
        effect.value_base effect.scaling_stat effect.value_scaling
      let t := readRef st ref
      let t := { t with hp := min t.max_hp (t.hp + heal_value) }
      (total_value + heal_value, is_crit, writeRef st ref t, k)
    else if effect.effect_type = "buff" then
      let t := readRef st ref
      let t := { t with buffs := t.buffs ++
        [{ id := effect.buff_id, duration := effect.duration,
           value := effect.value_base }] }
      (total_value + effect.value_base, is_crit, writeRef st ref t, k)
    else if effect.effect_type = "debuff" then
      let t := readRef st ref
      let t := { t with debuffs := t.debuffs ++
        [{ id := effect.debuff_id, duration := effect.duration,
           value := effect.value_base }] }
      (total_value + effect.value_base, is_crit, writeRef st ref t, k)
    else acc
  let (total_value, is_crit, st, k) := effects.foldl step (0, false, st, k)
  ({ action_type := primary_effect_type, caster_id := st.caster.unit_id,
     target_id := (readRef st ref).unit_id, skill_id := "",
     value := total_value, element := element, is_crit := is_crit },
   st, k)

/-- `SkillExecutor.execute_skill`: gate check, resource deduction, cooldown
start, target resolution, and per-target effect application.  Returns the
action list together with the final states of the skill instance, the
caster and the candidate list. -/
def execute_skill (skill : CombatSkill) (caster : CombatUnit)
    (targets : List CombatUnit) (ρ : ℕ → ℚ) (k : ℕ) :
    (List CombatAction × CombatSkill × CombatUnit × List CombatUnit) × ℕ :=
  if ¬ skill.can_use caster.mp caster.hp then (([], skill, caster, targets), k)
  else
    let caster := { caster with mp := caster.mp - skill.mp_cost,
                                hp := caster.hp - skill.hp_cost }
    let skill := skill.apply_cooldown
    let st : EffState := ⟨caster, targets⟩
    let actual_targets := select_targets skill st
    let (actions, st, k) := actual_targets.foldl
      (fun (acc : List CombatAction × EffState × ℕ) ref =>
        let (actions, st, k) := acc
        if (readRef st ref).is_dead then (actions, st, k)
        else
          let (action, st, k) := apply_effects skill.effects st ref ρ k
          (actions ++ [action], st, k))
      ([], st, k)
    ((actions, skill, st.caster, st.targets), k)

end Combat

namespace Routes

/-! ## Embedding of `src/web/combat_routes.py`

The Flask layer (session-id lookup in the `combat_sessions` dict, JSON
encoding, player persistence on victory) is external; the functions below
model a route's effect on one `CombatSession` value.  `random.random()`
draws come from the oracle `ρ` at a running index, `random.uniform(a, b)`
is `a + (b - a) * draw`, and `random.choice(seq)` picks the index
`min (len - 1) ⌊draw * len⌋` of `seq`. -/

/-- `class ActionType(Enum)` (the dispatch itself compares raw strings). -/
inductive ActionType where
  | ATTACK | SKILL | ITEM | FLEE | DEFEND
deriving DecidableEq, Repr

/-- `class CombatStatus(Enum)`. -/
inductive CombatStatus where
  | active | victory | defeat | fled
deriving DecidableEq, Repr

/-- A buff dict appended by this module: `{"type": ..., "duration": ...,
"value": ...}`; `value` defaults to 0 for entries (stun) written without
the key, matching `buff.get("value", 0)`. -/
structure Buff where
  type : String
  duration : ℤ := 0
  value : ℤ := 0
deriving DecidableEq, Repr

/-- `@dataclass class CombatEntity` from `combat_routes.py`. -/
structure CombatEntity where
  id : String
  name : String
  level : ℤ
  stage : String
  hp : ℤ
  max_hp : ℤ
  attack : ℤ
  defense : ℤ
  speed : ℤ
  entity_type : String := "enemy"
  skills : List String := []
  buffs : List Buff := []
  is_defending : Bool := false
deriving DecidableEq, Repr

/-- `@dataclass class CombatSession` from `combat_routes.py`. -/
structure CombatSession where
  session_id : String
  player : CombatEntity
  enemies : List CombatEntity
  turn_order : List String
  current_turn_index : ℤ := 0
  status : CombatStatus := .active
  log : List String := []
  turn_count : ℤ := 0
deriving DecidableEq, Repr

def dummyEntity : CombatEntity :=
  { id := "", name := "", level := 0, stage := "", hp := 0, max_hp := 0,
    attack := 0, defense := 0, speed := 0 }

/-- A reference to one mutable entity object of a session: the player or a
position in the enemies list (Python object identity is positional). -/
inductive EntityRef where
  | player
  | enemy (i : ℕ)
deriving DecidableEq, Repr

def readEnt (s : CombatSession) : EntityRef → CombatEntity
  | .player => s.player
  | .enemy i => s.enemies.getD i dummyEntity

def writeEnt (s : CombatSession) : EntityRef → CombatEntity → CombatSession
  | .player, u => { s with player := u }
  | .enemy i, u => { s with enemies := s.enemies.set i u }

def appendLog (s : CombatSession) (msg : String) : CombatSession :=
  { s with log := s.log ++ [msg] }

/-- Index drawn by `random.choice` on a sequence of length `n`. -/
def choiceIdx (q : ℚ) (n : ℕ) : ℕ := min (n - 1) (Int.toNat ⌊q * n⌋)

/-- `calculate_damage` from `combat_routes.py` (plain-attack damage with
defend halving, 15% crit and ±10% uniform jitter).  Consumes two draws:
the crit roll and the `random.uniform(0.9, 1.1)` jitter. -/
def calculate_damage (attacker defender : CombatEntity)
    (skill_multiplier : ℚ) (ρ : ℕ → ℚ) (k : ℕ) : ℤ × ℕ :=
  let base_damage : ℤ := max 1 (attacker.attack - Int.fdiv defender.defense 2)
  let base_damage : ℤ :=
    if defender.is_defending then Int.fdiv base_damage 2 else base_damage
  let is_crit := ρ k < 15/100
  let base_damage : ℤ :=
    if is_crit then pytrunc ((base_damage : ℚ) * (3/2)) else base_damage
  let damage : ℤ := pytrunc ((base_damage : ℚ) * skill_multiplier *
    (9/10 + (2/10) * ρ (k + 1)))
  (max 1 damage, k + 2)

/-- One entry of the `skill_effects` dict in `execute_skill`.  Numeric
side-effect keys absent from an entry behave as 0 under Python's
`dict.get` plus truthiness checks, so 0 encodes absence; `heal_amount`
defaults to 50 (`effect.get("heal_amount", 50)`). -/
structure SkillEffectSpec where
  multiplier : ℚ := 1
  damage_type : String := "physical"
  dot : Bool := false
  slow : Bool := false
  stun : Bool := false
  aoe : Bool := false
  lifesteal : ℚ := 0
  defense_buff : ℤ := 0
  attack_buff : ℤ := 0
  speed_buff : ℤ := 0
  dodge_buff : ℤ := 0
  heal_amount : ℤ := 50
deriving DecidableEq, Repr

/-- The `skill_effects` table of `execute_skill`, including the fallback
`{"multiplier": 1.0, "damage_type": "physical"}` for unknown names. -/
def skill_effects : String → SkillEffectSpec
  | "撕咬" => { multiplier := 12/10 }
  | "狼爪" => { multiplier := 1 }
  | "火球术" => { multiplier := 15/10, damage_type := "fire" }
  | "烈焰冲击" => { multiplier := 2, damage_type := "fire" }
  | "燃烧" => { multiplier := 5/10, damage_type := "fire", dot := true }
  | "冰封术" => { multiplier := 13/10, damage_type := "ice", slow := true }
  | "寒冰刺" => { multiplier := 18/10, damage_type := "ice" }
  | "冻结" => { multiplier := 1, damage_type := "ice", stun := true }
  | "冰霜护盾" => { multiplier := 0, damage_type := "buff", defense_buff := 20 }
  | "妖王斩" => { multiplier := 25/10, damage_type := "dark" }
  | "妖气护体" => { multiplier := 0, damage_type := "buff", defense_buff := 30 }
  | "摄魂术" => { multiplier := 15/10, damage_type := "dark", lifesteal := 3/10 }
  | "妖火焚天" => { multiplier := 3, damage_type := "fire", aoe := true }
  | "邪气斩" => { multiplier := 14/10, damage_type := "dark" }
  | "吸血术" => { multiplier := 12/10, damage_type := "dark", lifesteal := 5/10 }
  | "岩石撞击" => { multiplier := 16/10, damage_type := "earth" }
  | "石化" => { multiplier := 5/10, damage_type := "earth", stun := true }
  | "地震" => { multiplier := 2, damage_type := "earth", aoe := true }
  | "青云剑诀" => { multiplier := 15/10, damage_type := "wind" }
  | "清风诀" => { multiplier := 12/10, damage_type := "wind" }
  | "流云步法" => { multiplier := 0, damage_type := "buff", speed_buff := 20 }
  | "金鼎诀" => { multiplier := 14/10, damage_type := "fire" }
  | "三昧真火" => { multiplier := 22/10, damage_type := "fire" }
  | "九鼎炼术" => { multiplier := 0, damage_type := "buff", defense_buff := 25 }
  | "万花医术" => { multiplier := 0, damage_type := "heal", heal_amount := 50 }
  | "炼金散" => { multiplier := 13/10, damage_type := "poison" }
  | "回春术" => { multiplier := 0, damage_type := "heal", heal_amount := 80 }
  | "毒术精通" => { multiplier := 1, damage_type := "poison", dot := true }
  | "逍遥步" => { multiplier := 0, damage_type := "buff", speed_buff := 30 }
  | "无相功法" => { multiplier := 16/10 }
  | "逍遥心法" => { multiplier := 0, damage_type := "heal", heal_amount := 30 }
  | "逍遥游身" => { multiplier := 0, damage_type := "buff", dodge_buff := 25 }
  | "蜀山剑法" => { multiplier := 18/10 }
  | "八卦掌法" => { multiplier := 15/10 }
  | "金刚伏魔功" => { multiplier := 2 }
  | "内功心法" => { multiplier := 0, damage_type := "buff", attack_buff := 20 }
  | _ => { multiplier := 1, damage_type := "physical" }

/-- The result dict built by `execute_skill`. -/
structure SkillResult where
  skill : String
  attacker : String
  target : String
  success : Bool := true
  damage : ℤ := 0
  heal : ℤ := 0
  effects : List String := []
deriving DecidableEq, Repr

/-- Indices of the living enemies (`[e for e in session.enemies if e.hp > 0]`,
as the positions of those objects). -/
def aliveEnemyIdxs (s : CombatSession) : List ℕ :=
  (List.range s.enemies.length).filter
    (fun i => (s.enemies.getD i dummyEntity).hp > 0)

/-- Damage-loop sub-step: `if effect.get("lifesteal"):` heal the attacker
by `int(damage * lifesteal)`, clamped at max hp. -/
def lifesteal_step (attackerRef : EntityRef) (effect : SkillEffectSpec)
    (damage : ℤ) (acc : SkillResult × CombatSession) :
    SkillResult × CombatSession :=
  if effect.lifesteal ≠ 0 then
    let heal := pytrunc ((damage : ℚ) * effect.lifesteal)
    let att := readEnt acc.2 attackerRef
    ({ acc.1 with effects := acc.1.effects ++
         ["lifesteal_" ++ toString heal] },
     writeEnt acc.2 attackerRef
       { att with hp := min att.max_hp (att.hp + heal) })
  else acc

/-- Damage-loop sub-step: `if effect.get("stun"):` append a stun buff. -/
def stun_step (effect : SkillEffectSpec) (acc : SkillResult × CombatSession)
    (r : EntityRef) : SkillResult × CombatSession :=
  if effect.stun then
    let t := readEnt acc.2 r
    ({ acc.1 with effects := acc.1.effects ++ ["stun"] },
     writeEnt acc.2 r { t with buffs := t.buffs ++
       [{ type := "stun", duration := 1 }] })
  else acc

/-- Damage-loop sub-step: `if effect.get("slow"):` append a slow buff. -/
def slow_step (effect : SkillEffectSpec) (acc : SkillResult × CombatSession)
    (r : EntityRef) : SkillResult × CombatSession :=
  if effect.slow then
    let t := readEnt acc.2 r
    ({ acc.1 with effects := acc.1.effects ++ ["slow"] },
     writeEnt acc.2 r { t with buffs := t.buffs ++
       [{ type := "slow", duration := 2, value := -10 }] })
  else acc

/-- Damage-loop sub-step: `if effect.get("dot"):` append a
damage-over-time buff of `damage // 3` per round. -/
def dot_step (effect : SkillEffectSpec) (damage : ℤ)
    (acc : SkillResult × CombatSession) (r : EntityRef) :
    SkillResult × CombatSession :=
  if effect.dot then
    let t := readEnt acc.2 r
    ({ acc.1 with effects := acc.1.effects ++ ["dot"] },
     writeEnt acc.2 r { t with buffs := t.buffs ++
       [{ type := "dot", duration := 3, value := Int.fdiv damage 3 }] })
  else acc

/-- The body of `execute_skill`'s damage loop for one target. -/
def damage_one_target (attackerRef : EntityRef) (effect : SkillEffectSpec)
    (acc : SkillResult × CombatSession × ℕ) (r : EntityRef) (ρ : ℕ → ℚ) :
    SkillResult × CombatSession × ℕ :=
  let result := acc.1
  let s := acc.2.1
  let k := acc.2.2
  let tgt := readEnt s r
  if tgt.hp ≤ 0 then (result, s, k)
  else
    let dk := calculate_damage (readEnt s attackerRef) tgt
      effect.multiplier ρ k
    let damage := dk.1
    let s₁ := writeEnt s r { tgt with hp := max 0 (tgt.hp - damage) }
    let rs₁ := lifesteal_step attackerRef effect damage (result, s₁)
    let rs₂ := stun_step effect
      ({ rs₁.1 with damage := rs₁.1.damage + damage }, rs₁.2) r
    let rs₃ := slow_step effect rs₂ r
    let rs₄ := dot_step effect damage rs₃ r
    (rs₄.1, rs₄.2, dk.2)

/-- Buff branch sub-step: `if effect.get("attack_buff"):`. -/
def buff_attack_step (effect : SkillEffectSpec)
    (acc : CombatEntity × SkillResult) : CombatEntity × SkillResult :=
  if effect.attack_buff ≠ 0 then
    ({ acc.1 with attack := acc.1.attack + effect.attack_buff },
     { acc.2 with effects := acc.2.effects ++
         ["attack+" ++ toString effect.attack_buff] })
  else acc

/-- Buff branch sub-step: `if effect.get("defense_buff"):`. -/
def buff_defense_step (effect : SkillEffectSpec)
    (acc : CombatEntity × SkillResult) : CombatEntity × SkillResult :=
  if effect.defense_buff ≠ 0 then
    ({ acc.1 with defense := acc.1.defense + effect.defense_buff },
     { acc.2 with effects := acc.2.effects ++
         ["defense+" ++ toString effect.defense_buff] })
  else acc

/-- Buff branch sub-step: `if effect.get("speed_buff"):`. -/
def buff_speed_step (effect : SkillEffectSpec)
    (acc : CombatEntity × SkillResult) : CombatEntity × SkillResult :=
  if effect.speed_buff ≠ 0 then
    ({ acc.1 with speed := acc.1.speed + effect.speed_buff },
     { acc.2 with effects := acc.2.effects ++
         ["speed+" ++ toString effect.speed_buff] })
  else acc

/-- Buff branch sub-step: `if effect.get("dodge_buff"):` (appends the dodge
buff entry). -/
def buff_dodge_step (effect : SkillEffectSpec)
    (acc : CombatEntity × SkillResult) : CombatEntity × SkillResult :=
  if effect.dodge_buff ≠ 0 then
    ({ acc.1 with buffs := acc.1.buffs ++
         [{ type := "dodge", value := effect.dodge_buff, duration := 3 }] },
     { acc.2 with effects := acc.2.effects ++
         ["dodge+" ++ toString effect.dodge_buff] })
  else acc

/-- The buff branch of `execute_skill`: the four `if effect.get(...)`
stat/buff mutations of the acting entity, in source order. -/
def buff_apply (effect : SkillEffectSpec)
    (acc : CombatEntity × SkillResult) : CombatEntity × SkillResult :=
  buff_dodge_step effect (buff_speed_step effect
    (buff_defense_step effect (buff_attack_step effect acc)))

/-- `execute_skill` from `combat_routes.py` (the in-route table-driven skill
system, distinct from `src/combat/skills.py`). -/
def execute_skill (attackerRef targetRef : EntityRef) (skill_name : String)
    (s : CombatSession) (ρ : ℕ → ℚ) (k : ℕ) :
    SkillResult × CombatSession × ℕ :=
  let effect := skill_effects skill_name
  let attacker := readEnt s attackerRef
  let result : SkillResult :=
    { skill := skill_name, attacker := attacker.id,
      target := (readEnt s targetRef).id }
  if effect.damage_type = "heal" then
    let heal_amount := effect.heal_amount
    let actual_heal := min heal_amount (attacker.max_hp - attacker.hp)
    let s := writeEnt s attackerRef { attacker with hp := attacker.hp + actual_heal }
    let s := appendLog s (attacker.name ++ " 使用 " ++ skill_name ++ "，恢复了 "
      ++ toString actual_heal ++ " 点生命")
    ({ result with heal := actual_heal, effects := ["heal"] }, s, k)
  else if effect.damage_type = "buff" then
    let ar := buff_apply effect (attacker, result)
    let s := writeEnt s attackerRef ar.1
    let s := appendLog s (ar.1.name ++ " 使用 " ++ skill_name ++ "，获得了增益效果")
    (ar.2, s, k)
  else
    let targets : List EntityRef :=
      if effect.aoe then
        if attacker.entity_type = "player" then (aliveEnemyIdxs s).map .enemy
        else if s.player.hp > 0 then [.player] else []
      else [targetRef]
    let out := targets.foldl
      (fun acc r => damage_one_target attackerRef effect acc r ρ) (result, s, k)
    let targets_str :=
      if effect.aoe then "所有敌人" else (readEnt out.2.1 targetRef).name
    let sLog := appendLog out.2.1 ((readEnt out.2.1 attackerRef).name ++ " 使用 "
      ++ skill_name ++ " 对 " ++ targets_str ++ " 造成 "
      ++ toString out.1.damage ++ " 点伤害")
    (out.1, sLog, out.2.2)

/-- The action dicts accumulated by `process_enemy_turn`. -/
inductive EnemyAction where
  | skillUsed (r : SkillResult)
  | attack (attacker target : String) (damage : ℤ)
  | defend (entity : String)
  | waitTurn (entity : String)
deriving DecidableEq, Repr

/-- One enemy's plain attack on the player inside `process_enemy_turn`. -/
def enemy_plain_attack (actions : List EnemyAction) (s : CombatSession)
    (enemy : CombatEntity) (k : ℕ) (ρ : ℕ → ℚ) :
    List EnemyAction × CombatSession × ℕ :=
  let dk := calculate_damage enemy s.player 1 ρ k
  let damage := dk.1
  let s₁ := writeEnt s .player
    { s.player with hp := max 0 (s.player.hp - damage) }
  let s₂ := appendLog s₁ (enemy.name ++ " 攻击了 " ++ s₁.player.name
    ++ "，造成 " ++ toString damage ++ " 点伤害")
  (actions ++ [.attack enemy.id s₂.player.id damage], s₂, dk.2)

/-- The body of `process_enemy_turn`'s per-enemy loop (AI decision). -/
def enemy_one_turn (acc : List EnemyAction × CombatSession × ℕ) (i : ℕ)
    (ρ : ℕ → ℚ) : List EnemyAction × CombatSession × ℕ :=
  let actions := acc.1
  let s := acc.2.1
  let k := acc.2.2
  let enemy := readEnt s (.enemy i)
  if enemy.hp ≤ 0 then acc
  else if (enemy.buffs.find? (fun b => b.type = "stun")).isSome then
    (actions, appendLog s (enemy.name ++ " 被眩晕，无法行动"), k)
  else
    let action_roll := ρ k
    let k := k + 1
    if action_roll < 7/10 ∧ s.player.hp > 0 then
      if enemy.skills ≠ [] then
        let r₂ := ρ k
        let k := k + 1
        if r₂ < 4/10 then
          let skill := enemy.skills.getD (choiceIdx (ρ k) enemy.skills.length) ""
          let out := execute_skill (.enemy i) .player skill s ρ (k + 1)
          (actions ++ [.skillUsed out.1], out.2.1, out.2.2)
        else enemy_plain_attack actions s enemy k ρ
      else enemy_plain_attack actions s enemy k ρ
    else if action_roll < 85/100 then
      let s₁ := writeEnt s (.enemy i) { enemy with is_defending := true }
      let s₂ := appendLog s₁ (enemy.name ++ " 进入防御姿态")
      (actions ++ [.defend enemy.id], s₂, k)
    else
      (actions ++ [.waitTurn enemy.id], appendLog s (enemy.name ++ " 观察局势"), k)

/-- The damage-over-time / duration ticking of `process_enemy_turn` for one
entity: iterate the buff list, subtracting `value` from hp for active dots,
decrementing durations, and dropping entries that reach 0. -/
def tick_buffs_entity (s : CombatSession) (r : EntityRef) : CombatSession :=
  let ent := readEnt s r
  if ent.hp ≤ 0 then s
  else
    let hb := ent.buffs.foldl
      (fun (acc : ℤ × List Buff) b =>
        if b.type = "dot" ∧ b.duration > 0 then
          let hp := max 0 (acc.1 - b.value)
          let d := b.duration - 1
          if d ≤ 0 then (hp, acc.2)
          else (hp, acc.2 ++ [{ b with duration := d }])
        else if b.duration > 0 ∧ b.type ≠ "dot" then
          let d := b.duration - 1
          if d ≤ 0 then acc
          else (acc.1, acc.2 ++ [{ b with duration := d }])
        else (acc.1, acc.2 ++ [b]))
      (ent.hp, [])
    writeEnt s r { ent with hp := hb.1, buffs := hb.2 }

/-- `process_enemy_turn`: each living, non-stunned enemy acts (70%
attack-flavoured, 15% defend, 15% wait), then every living entity's buffs
tick. -/
def process_enemy_turn (s : CombatSession) (ρ : ℕ → ℚ) (k : ℕ) :
    List EnemyAction × CombatSession × ℕ :=
  let out := (List.range s.enemies.length).foldl
    (fun acc i => enemy_one_turn acc i ρ) ([], s, k)
  let sTicked := (EntityRef.player ::
      (List.range out.2.1.enemies.length).map .enemy).foldl
    tick_buffs_entity out.2.1
  (out.1, sTicked, out.2.2)

/-- `check_combat_end`: DEFEAT when the player's hp is gone, VICTORY when
every enemy's is. -/
def check_combat_end (s : CombatSession) : Option CombatStatus × CombatSession :=
  if s.player.hp ≤ 0 then (some .defeat, { s with status := .defeat })
  else if s.enemies.all (fun e => e.hp ≤ 0) then
    (some .victory, { s with status := .victory })
  else (none, s)

/-- One entry of the `MONSTER_DATA` dict. -/
structure MonsterTemplate where
  id : String
  name : String
  level_lo : ℤ
  level_hi : ℤ
  stage : String
  difficulty : String
  base_hp : ℤ
  base_attack : ℤ
  base_defense : ℤ
  base_speed : ℤ
  xp_reward : ℤ
  stone_reward : ℤ
  skills : List String
  description : String
deriving DecidableEq, Repr

/-- `MONSTER_DATA` from `combat_routes.py`. -/
def MONSTER_DATA : List MonsterTemplate :=
  [ { id := "wolf", name := "妖狼", level_lo := 1, level_hi := 10,
      stage := "炼气期", difficulty := "easy", base_hp := 80,
      base_attack := 15, base_defense := 5, base_speed := 12,
      xp_reward := 50, stone_reward := 10, skills := ["撕咬", "狼爪"],
      description := "炼气期常见怪物，物理攻击型" },
    { id := "fire_spirit", name := "火灵", level_lo := 10, level_hi := 25,
      stage := "筑基期", difficulty := "normal", base_hp := 200,
      base_attack := 40, base_defense := 20, base_speed := 25,
      xp_reward := 150, stone_reward := 30,
      skills := ["火球术", "烈焰冲击", "燃烧"],
      description := "筑基期怪物，火属性攻击" },
    { id := "ice_soul", name := "冰魄", level_lo := 25, level_hi := 45,
      stage := "金丹期", difficulty := "hard", base_hp := 500,
      base_attack := 80, base_defense := 50, base_speed := 40,
      xp_reward := 400, stone_reward := 80,
      skills := ["冰封术", "寒冰刺", "冻结", "冰霜护盾"],
      description := "金丹期怪物，冰属性攻击" },
    { id := "demon_king", name := "妖王", level_lo := 45, level_hi := 60,
      stage := "元婴期", difficulty := "boss", base_hp := 2000,
      base_attack := 200, base_defense := 100, base_speed := 60,
      xp_reward := 2000, stone_reward := 500,
      skills := ["妖王斩", "妖气护体", "摄魂术", "妖火焚天"],
      description := "Boss怪物，多技能" },
    { id := "evil_cultivator", name := "邪修", level_lo := 5, level_hi := 20,
      stage := "炼气期", difficulty := "normal", base_hp := 150,
      base_attack := 25, base_defense := 15, base_speed := 18,
      xp_reward := 80, stone_reward := 20, skills := ["邪气斩", "吸血术"],
      description := "堕落的修仙者" },
    { id := "stone_golem", name := "石像鬼", level_lo := 15, level_hi := 30,
      stage := "筑基期", difficulty := "hard", base_hp := 400,
      base_attack := 35, base_defense := 60, base_speed := 8,
      xp_reward := 200, stone_reward := 40,
      skills := ["岩石撞击", "石化", "地震"],
      description := "防御力极高的土属性怪物" } ]

/-- The dict produced by `get_monster_data` (the uuid suffix appended to
`id` is external entropy and omitted). -/
structure MonsterInstance where
  id : String
  name : String
  level : ℤ
  stage : String
  hp : ℤ
  max_hp : ℤ
  attack : ℤ
  defense : ℤ
  speed : ℤ
  skills : List String
  xp_reward : ℤ
  stone_reward : ℤ
  difficulty : String
deriving DecidableEq, Repr

/-- `get_monster_data`: template lookup (with a random level-appropriate
fallback for unknown types) and the level-based linear scaling clamped to
`[0.5, 3.0]`. -/
def get_monster_data (monster_type : String) (player_level : ℤ)
    (ρ : ℕ → ℚ) (k : ℕ) : MonsterInstance × ℕ :=
  let mdk :=
    match MONSTER_DATA.find? (fun m => m.id = monster_type) with
    | some m => (m, k)
    | none =>
        let suitable := MONSTER_DATA.filter
          (fun m : MonsterTemplate =>
            m.level_lo ≤ player_level ∧ player_level ≤ m.level_hi)
        let suitable := if suitable = [] then MONSTER_DATA else suitable
        (suitable.getD (choiceIdx (ρ k) suitable.length)
          (suitable.getD 0 (MONSTER_DATA.getD 0
            { id := "", name := "", level_lo := 0, level_hi := 0, stage := "",
              difficulty := "", base_hp := 0, base_attack := 0,
              base_defense := 0, base_speed := 0, xp_reward := 0,
              stone_reward := 0, skills := [], description := "" })), k + 1)
  let md := mdk.1
  let lm : ℚ := 1 + ((player_level : ℚ) - md.level_lo) * (1/10)
  let lm : ℚ := max (5/10) (min lm 3)
  ({ id := md.id, name := md.name,
     level := max 1 (min player_level md.level_hi), stage := md.stage,
     hp := pytrunc (md.base_hp * lm), max_hp := pytrunc (md.base_hp * lm),
     attack := pytrunc (md.base_attack * lm),
     defense := pytrunc (md.base_defense * lm),
     speed := pytrunc (md.base_speed * lm), skills := md.skills,
     xp_reward := pytrunc (md.xp_reward * lm),
     stone_reward := pytrunc (md.stone_reward * lm),
     difficulty := md.difficulty }, mdk.2)

/-- The request body of the action route: `data.get('action_type', 'attack')`,
optional `target_id` / `skill_id`, and the item path's
`data.get('heal_amount', 50)`. -/
structure ActionRequest where
  action_type : String := "attack"
  target_id : Option String := none
  skill_id : Option String := none
  heal_amount : Option ℤ := none
deriving DecidableEq, Repr

/-- Which JSON response `execute_action` produced.  `notActive` is the
"battle already over" rejection carrying the session's current status;
`fledOk` is the early return on a successful flee; `ok success` the normal
end-of-turn response (success is `action_result['success']`, false exactly
for a failed flee). -/
inductive ActionResponse where
  | notActive (status : CombatStatus)
  | playerDead
  | noTarget
  | invalidTarget
  | noSkillGiven
  | skillNotKnown
  | fledOk
  | ok (success : Bool)
deriving DecidableEq, Repr

/-- Lines 699-718 of `combat_routes.py`: the turn-count increment and the
victory-reward block (the storage writes to the player record are external;
the session effect is the victory log line). -/
def action_finish (s : CombatSession) (endStatus : Option CombatStatus)
    (ρ : ℕ → ℚ) (k : ℕ) : CombatSession × ℕ :=
  let s := { s with turn_count := s.turn_count + 1 }
  if endStatus = some CombatStatus.victory then
    let mdk := get_monster_data "" s.player.level ρ k
    let total_xp := mdk.1.level * 10 * (s.enemies.length : ℤ)
    let total_stones := mdk.1.level * 5 * (s.enemies.length : ℤ)
    (appendLog s ("战斗胜利！获得 " ++ toString total_xp ++ " 经验和 "
      ++ toString total_stones ++ " 仙石"), mdk.2)
  else (s, k)

/-- Lines 688-700 of `combat_routes.py`, shared by every non-early-return
action path: end check, enemy phase while still active, re-check, then
`action_finish`. -/
def action_tail (s : CombatSession) (ρ : ℕ → ℚ) (k : ℕ) : CombatSession × ℕ :=
  let c₁ := check_combat_end s
  if c₁.2.status = .active then
    let p := process_enemy_turn c₁.2 ρ k
    let c₂ := check_combat_end p.2.1
    action_finish c₂.2 c₂.1 ρ p.2.2
  else
    action_finish c₁.2 c₁.1 ρ k

/-- `target_id or first living enemy`, shared by the attack and skill
branches of `execute_action`. -/
def resolve_target_id (s : CombatSession) (target_id? : Option String) :
    Option String :=
  match target_id? with
  | some t => some t
  | none => ((s.enemies.filter (fun e => e.hp > 0)).head?).map (fun e => e.id)

/-- `execute_action`, the `/<session_id>/action` route body (after the
session-registry lookup). -/
def execute_action (s : CombatSession) (req : ActionRequest) (ρ : ℕ → ℚ)
    (k : ℕ) : ActionResponse × CombatSession × ℕ :=
  if s.status ≠ .active then (.notActive s.status, s, k)
  else if s.player.hp ≤ 0 then (.playerDead, s, k)
  else
    let s := { s with player := { s.player with is_defending := false } }
    if req.action_type = "attack" then
      match resolve_target_id s req.target_id with
      | none => (.noTarget, s, k)
      | some tid =>
        match s.enemies.findIdx? (fun e => e.id = tid) with
        | none => (.invalidTarget, s, k)
        | some i =>
          let target := readEnt s (.enemy i)
          if target.hp ≤ 0 then (.invalidTarget, s, k)
          else
            let dk := calculate_damage s.player target 1 ρ k
            let s₁ := writeEnt s (.enemy i)
              { target with hp := max 0 (target.hp - dk.1) }
            let s₂ := appendLog s₁ (s₁.player.name ++ " 攻击了 " ++ target.name
              ++ "，造成 " ++ toString dk.1 ++ " 点伤害")
            let t := action_tail s₂ ρ dk.2
            (.ok true, t.1, t.2)
    else if req.action_type = "skill" then
      match req.skill_id with
      | none => (.noSkillGiven, s, k)
      | some sid =>
        if ¬ s.player.skills.contains sid then (.skillNotKnown, s, k)
        else
          match resolve_target_id s req.target_id with
          | none => (.noTarget, s, k)
          | some tid =>
            match s.enemies.findIdx? (fun e => e.id = tid) with
            | none => (.invalidTarget, s, k)
            | some i =>
              let out := execute_skill .player (.enemy i) sid s ρ k
              let t := action_tail out.2.1 ρ out.2.2
              (.ok true, t.1, t.2)
    else if req.action_type = "defend" then
      let s₁ : CombatSession :=
        { s with player := { s.player with is_defending := true } }
      let s₂ := appendLog s₁ (s₁.player.name ++ " 进入防御姿态")
      let t := action_tail s₂ ρ k
      (.ok true, t.1, t.2)
    else if req.action_type = "flee" then
      let flee_chance : ℚ := 1/2 + (s.player.speed : ℚ) / 200
      if ρ k < flee_chance then
        let s₁ : CombatSession := { s with status := .fled }
        let s₂ := appendLog s₁ (s₁.player.name ++ " 成功逃脱了战斗")
        (.fledOk, s₂, k + 1)
      else
        let s₁ := appendLog s (s.player.name ++ " 逃跑失败")
        let t := action_tail s₁ ρ (k + 1)
        (.ok false, t.1, t.2)
    else if req.action_type = "item" then
      let heal_amount := req.heal_amount.getD 50
      let actual_heal := min heal_amount (s.player.max_hp - s.player.hp)
      let s₁ : CombatSession :=
        { s with player := { s.player with hp := s.player.hp + actual_heal } }
      let s₂ := appendLog s₁ (s₁.player.name ++ " 使用了物品，恢复了 "
        ++ toString actual_heal ++ " 点生命")
      let t := action_tail s₂ ρ k
      (.ok true, t.1, t.2)
    else
      let t := action_tail s ρ k
      (.ok true, t.1, t.2)

/-- `auto_combat`'s plain-attack arm on the first living enemy (the entry
appended to the route's local `result_log`, which the route never returns,
is omitted). -/
def auto_plain_attack (s : CombatSession) (i₀ : ℕ) (ρ : ℕ → ℚ) (k : ℕ) :
    CombatSession × ℕ :=
  let target := readEnt s (.enemy i₀)
  let dk := calculate_damage s.player target 1 ρ k
  (writeEnt s (.enemy i₀) { target with hp := max 0 (target.hp - dk.1) }, dk.2)

/-- `auto_combat`'s per-round player decision: 30% skill use when skills
are known and hp is above 30% of max, otherwise a plain attack on the
first living enemy `i₀`.  The `and` chain short-circuits, so the 0.3 draw
is only consumed when the first two conjuncts hold. -/
def auto_player_action (s : CombatSession) (i₀ : ℕ) (ρ : ℕ → ℚ) (k : ℕ) :
    CombatSession × ℕ :=
  if s.player.skills ≠ [] then
    if (s.player.hp : ℚ) > (s.player.max_hp : ℚ) * (3/10) then
      if ρ k < 3/10 then
        let skill := s.player.skills.getD
          (choiceIdx (ρ (k + 1)) s.player.skills.length) ""
        let out := execute_skill .player (.enemy i₀) skill s ρ (k + 2)
        (out.2.1, out.2.2)
      else auto_plain_attack s i₀ ρ (k + 1)
    else auto_plain_attack s i₀ ρ k
  else auto_plain_attack s i₀ ρ k

/-- The `for turn in range(max_turns)` loop of `auto_combat`, as structural
recursion on the remaining turns. -/
def auto_loop (ρ : ℕ → ℚ) : ℕ → CombatSession → ℕ → CombatSession × ℕ
  | 0, s, k => (s, k)
  | n + 1, s, k =>
    if s.status ≠ .active then (s, k)
    else
      match s.enemies.findIdx? (fun e => e.hp > 0) with
      | none => (s, k)
      | some i₀ =>
        let a := auto_player_action s i₀ ρ k
        let c := check_combat_end a.1
        if c.1.isSome then (c.2, a.2)
        else
          let p := process_enemy_turn c.2 ρ a.2
          let s₁ : CombatSession :=
            { p.2.1 with turn_count := p.2.1.turn_count + 1 }
          auto_loop ρ n s₁ p.2.2

/-- The result dict of the `/<session_id>/auto` route. -/
structure AutoResult where
  status : CombatStatus
  turns : ℤ
  xp_gained : ℤ := 0
  stones_gained : ℤ := 0
  items_dropped : List String := []
  log : List String := []
deriving DecidableEq, Repr

/-- Which JSON response `auto_combat` produced. -/
inductive AutoResponse where
  | notActive (status : CombatStatus)
  | ok (result : AutoResult)
deriving DecidableEq, Repr

/-- `auto_combat`, the `/<session_id>/auto` route body:
`max_turns = data.get('max_turns', 50)` bounded resolution, then the final
status, turn count and (on victory) rewards are reported.  The player
storage update on victory is external. -/
def auto_combat (s : CombatSession) (max_turns? : Option ℕ) (ρ : ℕ → ℚ)
    (k : ℕ) : AutoResponse × CombatSession × ℕ :=
  if s.status ≠ .active then (.notActive s.status, s, k)
  else
    let max_turns := max_turns?.getD 50
    let lk := auto_loop ρ max_turns s k
    let final_status := lk.1.status
    let gains :=
      if final_status = .victory then
        let mdk := get_monster_data "" lk.1.player.level ρ lk.2
        ((mdk.1.level * 10 * (lk.1.enemies.length : ℤ),
          mdk.1.level * 5 * (lk.1.enemies.length : ℤ)), mdk.2)
      else ((0, 0), lk.2)
    (.ok { status := final_status, turns := lk.1.turn_count,
           xp_gained := gains.1.1, stones_gained := gains.1.2,
           log := lk.1.log },
     lk.1, gains.2)

end Routes

namespace Routes

/-- One HTTP call against a stored session: the action route or the
auto-resolve route. -/
inductive ApiCall where
  | action (req : ActionRequest)
  | auto (max_turns? : Option ℕ)
deriving DecidableEq, Repr

/-- The session effect of one call. -/
def apiStep (s : CombatSession) (c : ApiCall) (ρ : ℕ → ℚ) (k : ℕ) :
    CombatSession × ℕ :=
  match c with
  | .action req => ((execute_action s req ρ k).2.1, (execute_action s req ρ k).2.2)
  | .auto mt => ((auto_combat s mt ρ k).2.1, (auto_combat s mt ρ k).2.2)

/-- The session effect of a sequence of calls. -/
def runCalls (s : CombatSession) (cs : List ApiCall) (ρ : ℕ → ℚ) (k : ℕ) :
    CombatSession × ℕ :=
  cs.foldl (fun (acc : CombatSession × ℕ) c => apiStep acc.1 c ρ acc.2) (s, k)

/-- `s'` has the same enemy count as `s` and keeps every defending enemy of
`s` defending.  No code path in `combat_routes.py` writes `False` into an
enemy's `is_defending`, so every session-mutating function preserves this
relation. -/
def DefendMono (s s' : CombatSession) : Prop :=
  s'.enemies.length = s.enemies.length ∧
  ∀ i, (s.enemies.getD i dummyEntity).is_defending = true →
    (s'.enemies.getD i dummyEntity).is_defending = true

/-- The frame preserved by every sub-step of a turn that is not an
end-check or the turn-count increment: turn count and status unchanged,
defending enemies stay defending. -/
def PhaseFrame (s s' : CombatSession) : Prop :=
  s'.turn_count = s.turn_count ∧ s'.status = s.status ∧ DefendMono s s'

end Routes

/-! ## Concrete probe data for counterexamples and witnesses -/

/-- An oracle whose every draw is 0. -/
def oracle0 : ℕ → ℚ := fun _ => 0

/-- An oracle whose every draw is 1/2. -/
def oracleHalf : ℕ → ℚ := fun _ => 1/2

def probePlayer : Routes.CombatEntity :=
  { id := "player", name := "P", level := 1, stage := "炼气期",
    hp := 1000000, max_hp := 1000000, attack := 1, defense := 0, speed := 10,
    entity_type := "player" }

def probeEnemy : Routes.CombatEntity :=
  { id := "enemy_0", name := "E", level := 1, stage := "炼气期", hp := 1000,
    max_hp := 1000, attack := 1, defense := 0, speed := 5 }

/-- A stalemate session: neither side can finish the other within 50
rounds. -/
def probeSession : Routes.CombatSession :=
  { session_id := "combat_probe", player := probePlayer,
    enemies := [probeEnemy], turn_order := ["player", "enemy_0"] }

/-- A session whose player is at 10/100 hp, for the item path. -/
def probeItemSession : Routes.CombatSession :=
  { session_id := "combat_item", player := { probePlayer with hp := 10, max_hp := 100 },
    enemies := [probeEnemy], turn_order := ["player", "enemy_0"] }

/-- A session that already ended in flight. -/
def probeFledSession : Routes.CombatSession :=
  { probeSession with session_id := "combat_fled", status := .fled }

/-- A session whose player has speed 200, for the flee bound. -/
def probeFastSession : Routes.CombatSession :=
  { probeSession with
    session_id := "combat_fast",
    player := { probePlayer with speed := 200 } }

/-- A session whose only enemy is currently defending. -/
def probeDefendSession : Routes.CombatSession :=
  { probeSession with
    session_id := "combat_def",
    enemies := [{ probeEnemy with is_defending := true }] }

def probeAttacker : Combat.CombatUnit := { unit_id := "a", name := "a", attack := 10 }

def probeDefender : Combat.CombatUnit :=
  { unit_id := "d", name := "d", defense := 0, dodge_rate := 0,
    element := some .WOOD }

def probeCaster : Combat.CombatUnit := { unit_id := "c", name := "c", mp := 50, hp := 100 }

def probeDeadTarget : Combat.CombatUnit := { unit_id := "t", name := "t", is_dead := true }

/-- A cooling-down instance of a damage skill. -/
def probeCoolingSkill : Combat.CombatSkill :=
  { skill_id := "probe", name := "probe", description := "probe",
    skill_type := .ACTIVE, target_type := .SINGLE_ENEMY, mp_cost := 10,
    cooldown := 3, current_cooldown := 2,
    effects := [{ effect_type := "damage", value_base := 30,
                  value_scaling := 1, scaling_stat := .attack,
                  element := some .WIND }] }

/-- The same skill, off cooldown. -/
def probeReadySkill : Combat.CombatSkill :=
  { probeCoolingSkill with current_cooldown := 0 }

/-- The log after `j` rounds of the stalemate below: the stunned enemy
skips its action each round. -/
def staleLog (j : ℕ) : List String := List.replicate j "E 被眩晕，无法行动"

/-- A stalemate family: after `j` auto-combat rounds against a permanently
stunned enemy (a stun entry whose duration is already 0 is never removed
and always found by the stun check), the session has this exact shape —
the player chips 1 hp per round off the enemy and nothing else changes. -/
def stale (j : ℕ) : Routes.CombatSession :=
  { session_id := "combat_probe",
    player := probePlayer,
    enemies :=
      [ { probeEnemy with
          hp := 1000 - (j : ℤ),
          buffs := [{ type := "stun", duration := 0 }] } ],
    turn_order := ["player", "enemy_0"],
    status := .active,
    log := staleLog j,
    turn_count := (j : ℤ) }

/-- The stalemate session right after the player's auto-round attack:
the enemy has lost exactly one hit point. -/
def staleHit (j : ℕ) : Routes.CombatSession :=
  { stale j with
    enemies :=
      [ { probeEnemy with
          hp := 1000 - (j : ℤ) - 1,
          buffs := [{ type := "stun", duration := 0 }] } ] }

/-! ## Theorems -/

theorem pytrunc_ofInt (n : ℤ) : pytrunc (n : ℚ) = n := by
  unfold pytrunc
  split <;> simp

theorem one_le_pytrunc {q : ℚ} (h : 1 ≤ q) : 1 ≤ pytrunc q := by
  unfold pytrunc
  rw [if_pos (le_trans zero_le_one h)]
  exact_mod_cast Int.le_floor.mpr (by exact_mod_cast h)

theorem pytrunc_nonneg {q : ℚ} (h : 0 ≤ q) : 0 ≤ pytrunc q := by
  unfold pytrunc
  rw [if_pos h]
  exact_mod_cast Int.le_floor.mpr (by exact_mod_cast h)
theorem one_le_mul_q {a b : ℚ} (ha : 1 ≤ a) (hb : 1 ≤ b) : 1 ≤ a * b := by
  nlinarith

/-- C1: the counter table itself lists WOOD in WIND's counter list ("wind
counters wood"), yet `get_element_multiplier(WIND, WOOD)` evaluates to
0.75, not the claimed 1.5: the two membership tests are swapped relative
to the table's (and the spec's) reading, so a countering attacker is
penalised and a countered one rewarded. -/
theorem C1_element_multiplier_eval :
    Combat.Element.WOOD ∈ Combat.ELEMENT_COUNTERS Combat.Element.WIND ∧
    Combat.get_element_multiplier Combat.Element.WIND Combat.Element.WOOD
      = 3/4 := by
  constructor
  · decide
  · norm_num +decide [Combat.get_element_multiplier, Combat.ELEMENT_COUNTERS]

/-- C2 is refuted at a concrete input: a non-dodged physical hit (dodge
draw 1/2 against dodge rate 0, crit draw 1/2 against crit rate 0.05) with
base 0 + 10·0.1 = 1 damage against 0 defense is floored to 1, but the 0.75
elemental multiplier then truncates it to 0. -/
theorem C2_counterexample :
    (Combat.calculate_damage probeAttacker probeDefender .WIND .PHYSICAL 0
        .attack (1/10) oracleHalf 0).1.dodged = false ∧
    (Combat.calculate_damage probeAttacker probeDefender .WIND .PHYSICAL 0
        .attack (1/10) oracleHalf 0).1.damage = 0 := by
  constructor <;>
    norm_num +decide [Combat.calculate_damage, Combat.get_element_multiplier,
      Combat.ELEMENT_COUNTERS, Combat.getStat, pytrunc, probeAttacker,
      probeDefender, oracleHalf]

/-- C2 (amended): a non-dodged hit's damage is at least 1 provided the
damage class is physical or magic (not true damage), the elemental
multiplier is at least 1, and the attacker's crit multiplier is at least 1;
the 0.75 disadvantage multiplier (see the counterexample) and true damage
can yield 0. -/
theorem C2_min_damage (attacker defender : Combat.CombatUnit)
    (element : Combat.Element) (damage_type : Combat.DamageType)
    (base_value : ℤ) (scaling_stat : Combat.StatName)
    (scaling_multiplier : ℚ) (ρ : ℕ → ℚ) (k : ℕ)
    (hnd : ¬ ρ k < defender.dodge_rate)
    (ht : damage_type ≠ Combat.DamageType.TRUE)
    (hm : 1 ≤ Combat.get_element_multiplier element
        (defender.element.getD Combat.Element.NONE))
    (hc : 1 ≤ attacker.crit_damage) :
    (Combat.calculate_damage attacker defender element damage_type
        base_value scaling_stat scaling_multiplier ρ k).1.dodged = false ∧
    1 ≤ (Combat.calculate_damage attacker defender element damage_type
        base_value scaling_stat scaling_multiplier ρ k).1.damage := by
  unfold Combat.calculate_damage
  rw [if_neg hnd]
  refine ⟨rfl, ?_⟩
  dsimp only
  rw [if_neg ht]
  have h₂ : ∀ x : ℤ, 1 ≤ x → (1 : ℤ) ≤ pytrunc ((x : ℚ) *
      Combat.get_element_multiplier element
        (defender.element.getD Combat.Element.NONE)) := fun x hx =>
    one_le_pytrunc (one_le_mul_q (by exact_mod_cast hx) hm)
  have h₃ : ∀ x : ℤ, 1 ≤ x → (1 : ℤ) ≤ pytrunc ((x : ℚ) *
      attacker.crit_damage) := fun x hx =>
    one_le_pytrunc (one_le_mul_q (by exact_mod_cast hx) hc)
  split
  · exact h₃ _ (h₂ _ (le_max_left _ _))
  · exact h₂ _ (le_max_left _ _)

/-- Witness for `C2_min_damage`: the hypotheses hold and the conclusion
follows at a concrete neutral-element physical hit. -/
theorem C2_min_damage_witness :
    (¬ oracleHalf 0 < probeDefender.dodge_rate) ∧
    (Combat.DamageType.PHYSICAL ≠ Combat.DamageType.TRUE) ∧
    (1 ≤ Combat.get_element_multiplier Combat.Element.NONE
        (probeDefender.element.getD Combat.Element.NONE)) ∧
    (1 ≤ probeAttacker.crit_damage) ∧
    ((Combat.calculate_damage probeAttacker probeDefender .NONE .PHYSICAL 5
        .attack 1 oracleHalf 0).1.dodged = false ∧
     1 ≤ (Combat.calculate_damage probeAttacker probeDefender .NONE .PHYSICAL 5
        .attack 1 oracleHalf 0).1.damage) :=
  ⟨by norm_num [oracleHalf, probeDefender],
   by decide,
   by norm_num +decide [Combat.get_element_multiplier, probeDefender],
   by norm_num [probeAttacker],
   C2_min_damage probeAttacker probeDefender .NONE .PHYSICAL 5 .attack 1
     oracleHalf 0 (by norm_num [oracleHalf, probeDefender]) (by decide)
     (by norm_num +decide [Combat.get_element_multiplier, probeDefender])
     (by norm_num [probeAttacker])⟩

/-- C4: when the gate check fails (cooldown running, or mp/hp cost above
the caster's current mp/hp), `execute_skill` returns the empty action list
and leaves the skill, the caster and every candidate target exactly as
they were. -/
theorem C4_gate_rejects_without_mutation (skill : Combat.CombatSkill)
    (caster : Combat.CombatUnit) (targets : List Combat.CombatUnit)
    (ρ : ℕ → ℚ) (k : ℕ)
    (h : 0 < skill.current_cooldown ∨ caster.mp < skill.mp_cost ∨
         caster.hp < skill.hp_cost) :
    Combat.execute_skill skill caster targets ρ k =
      (([], skill, caster, targets), k) := by
  have hcu : skill.can_use caster.mp caster.hp = false := by
    unfold Combat.CombatSkill.can_use
    split_ifs with h₁ h₂ h₃
    · rfl
    · rfl
    · rfl
    · rcases h with h | h | h
      · exact absurd h h₁
      · exact absurd h h₂
      · exact absurd h h₃
  simp [Combat.execute_skill, hcu]

/-- Witness for `C4_gate_rejects_without_mutation` at a skill with
`current_cooldown = 2`. -/
theorem C4_witness :
    (0 < probeCoolingSkill.current_cooldown ∨
     probeCaster.mp < probeCoolingSkill.mp_cost ∨
     probeCaster.hp < probeCoolingSkill.hp_cost) ∧
    Combat.execute_skill probeCoolingSkill probeCaster [probeDefender]
        oracle0 0 =
      (([], probeCoolingSkill, probeCaster, [probeDefender]), 0) :=
  ⟨Or.inl (by decide),
   C4_gate_rejects_without_mutation probeCoolingSkill probeCaster
     [probeDefender] oracle0 0 (Or.inl (by decide))⟩
/-- C9: when the gate passes, costs and cooldown are applied before target
resolution, so a single-enemy or all-enemies skill cast with only dead
candidates returns the empty action list even though the caster's mp/hp
were deducted and the cooldown started: an empty result does not imply no
mutation. -/
theorem C9_empty_result_after_mutation (skill : Combat.CombatSkill)
    (caster : Combat.CombatUnit) (targets : List Combat.CombatUnit)
    (ρ : ℕ → ℚ) (k : ℕ)
    (hcu : skill.can_use caster.mp caster.hp = true)
    (htt : skill.target_type = .SINGLE_ENEMY ∨ skill.target_type = .ALL_ENEMIES)
    (hdead : ∀ t ∈ targets, t.is_dead = true) :
    Combat.execute_skill skill caster targets ρ k =
      (([], { skill with current_cooldown := skill.cooldown },
        { caster with mp := caster.mp - skill.mp_cost,
                      hp := caster.hp - skill.hp_cost },
        targets), k) := by
  have halive : Combat.aliveIdxs targets = [] := by
    unfold Combat.aliveIdxs
    rw [List.filter_eq_nil_iff]
    intro i hi
    have hilt : i < targets.length := List.mem_range.mp hi
    have hmem : targets.getD i Combat.dummyUnit ∈ targets := by
      rw [List.getD_eq_getElem targets Combat.dummyUnit hilt]
      exact List.getElem_mem hilt
    simp only [decide_eq_true_eq, not_not]
    show (targets.getD i Combat.dummyUnit).is_dead = true
    exact hdead _ hmem
  have hsel : ∀ (sk : Combat.CombatSkill) (st : Combat.EffState),
      sk.target_type = skill.target_type → st.targets = targets →
      Combat.select_targets sk st = [] := by
    intro sk st hteq hts
    rcases htt with h | h <;>
      simp [Combat.select_targets, hteq, h, hts, halive]
  unfold Combat.execute_skill
  rw [hcu]
  rw [if_neg (fun h => h rfl)]
  dsimp only
  rw [hsel (skill.apply_cooldown) _ rfl rfl]
  simp [Combat.CombatSkill.apply_cooldown]

/-- Witness for `C9_empty_result_after_mutation`: a ready skill cast at a
dead candidate list. -/
theorem C9_witness :
    probeReadySkill.can_use probeCaster.mp probeCaster.hp = true ∧
    Combat.execute_skill probeReadySkill probeCaster [probeDeadTarget]
        oracle0 0 =
      (([], { probeReadySkill with
                current_cooldown := probeReadySkill.cooldown },
        { probeCaster with mp := probeCaster.mp - probeReadySkill.mp_cost,
                           hp := probeCaster.hp - probeReadySkill.hp_cost },
        [probeDeadTarget]), 0) :=
  ⟨by decide,
   C9_empty_result_after_mutation probeReadySkill probeCaster
     [probeDeadTarget] oracle0 0 (by decide) (Or.inl (by decide))
     (by decide)⟩
theorem getD_append_lt {α : Type} (l l' : List α) (d : α) (i : ℕ)
    (h : i < l.length) : (l ++ l').getD i d = l.getD i d :=
  List.getD_append l l' d i h

theorem getD_append_len {α : Type} (l : List α) (x d : α) :
    (l ++ [x]).getD l.length d = x := by
  simp [List.getD_append_right, le_refl]

theorem getD_set_ne {α : Type} (l : List α) (i j : ℕ) (x d : α) (h : i ≠ j) :
    (l.set i x).getD j d = l.getD j d := by
  simp [List.getD, List.getElem?_set_ne h]

/-- C8: `get_skill` on any registered id returns a freshly allocated clone
object (address `registryHeap.skills.length`), never the template's
address; the clone carries the template's attribute record and an equal
but freshly allocated effect list; cloning leaves every existing object
unchanged; and writing the clone's `current_cooldown` or mutating its
effect list leaves every other skill object and effect list (the template
and any other clone included) unchanged. -/
theorem C8_clone_fresh_and_independent (skill_id : String) (p : String × ℕ)
    (hfind : Combat.registryAddrs.find? (fun q => q.1 = skill_id) = some p) :
    (Combat.get_skill skill_id Combat.registryHeap).1 =
      some Combat.registryHeap.skills.length ∧
    p.2 ≠ Combat.registryHeap.skills.length ∧
    (((Combat.get_skill skill_id Combat.registryHeap).2).skills.getD
        Combat.registryHeap.skills.length Combat.dummySkillObj).data =
      (Combat.registryHeap.skills.getD p.2 Combat.dummySkillObj).data ∧
    ((Combat.get_skill skill_id Combat.registryHeap).2).effectLists.getD
        (((Combat.get_skill skill_id Combat.registryHeap).2).skills.getD
          Combat.registryHeap.skills.length Combat.dummySkillObj).effectsRef [] =
      Combat.registryHeap.effectLists.getD
        ((Combat.registryHeap.skills.getD p.2 Combat.dummySkillObj).effectsRef) [] ∧
    (((Combat.get_skill skill_id Combat.registryHeap).2).skills.getD
        Combat.registryHeap.skills.length Combat.dummySkillObj).effectsRef ≠
      (Combat.registryHeap.skills.getD p.2 Combat.dummySkillObj).effectsRef ∧
    (∀ b, b < Combat.registryHeap.skills.length →
      ((Combat.get_skill skill_id Combat.registryHeap).2).skills.getD b
          Combat.dummySkillObj =
        Combat.registryHeap.skills.getD b Combat.dummySkillObj) ∧
    (∀ (v : ℤ) (b : ℕ), b ≠ Combat.registryHeap.skills.length →
      (Combat.setCurrentCooldown (Combat.get_skill skill_id Combat.registryHeap).2
          Combat.registryHeap.skills.length v).skills.getD b Combat.dummySkillObj =
        ((Combat.get_skill skill_id Combat.registryHeap).2).skills.getD b
          Combat.dummySkillObj) ∧
    (∀ (l : List Combat.SkillEffect) (r : ℕ),
      r ≠ (((Combat.get_skill skill_id Combat.registryHeap).2).skills.getD
          Combat.registryHeap.skills.length Combat.dummySkillObj).effectsRef →
      (Combat.setEffectList (Combat.get_skill skill_id Combat.registryHeap).2
          (((Combat.get_skill skill_id Combat.registryHeap).2).skills.getD
            Combat.registryHeap.skills.length Combat.dummySkillObj).effectsRef
          l).effectLists.getD r [] =
        ((Combat.get_skill skill_id Combat.registryHeap).2).effectLists.getD r
          []) := by
  have d3 : ∀ q ∈ Combat.registryAddrs, q.2 < Combat.registryHeap.skills.length := by
    decide
  have d4 : ∀ o ∈ Combat.registryHeap.skills,
      o.effectsRef < Combat.registryHeap.effectLists.length := by decide
  have dlen : Combat.registryHeap.skills.length = 15 := by decide
  have delen : Combat.registryHeap.effectLists.length = 15 := by decide
  have hp2 : p.2 < Combat.registryHeap.skills.length :=
    d3 p (List.mem_of_find?_eq_some hfind)
  have htmem : Combat.registryHeap.skills.getD p.2 Combat.dummySkillObj ∈
      Combat.registryHeap.skills := by
    rw [List.getD_eq_getElem _ _ hp2]
    exact List.getElem_mem hp2
  have href : (Combat.registryHeap.skills.getD p.2 Combat.dummySkillObj).effectsRef <
      Combat.registryHeap.effectLists.length := d4 _ htmem
  have hget : Combat.get_skill skill_id Combat.registryHeap =
      (some Combat.registryHeap.skills.length,
       Combat.cloneAt Combat.registryHeap p.2 |>.2) := by
    unfold Combat.get_skill
    rw [hfind]
    rfl
  rw [hget]
  unfold Combat.cloneAt
  dsimp only
  rw [getD_append_len]
  refine ⟨rfl, Nat.ne_of_lt hp2, rfl, ?_, ?_, ?_, ?_, ?_⟩
  · dsimp only
    rw [getD_append_len]
  · dsimp only
    exact Nat.ne_of_gt href
  · intro b hb
    exact getD_append_lt _ _ _ _ hb
  · intro v b hb
    unfold Combat.setCurrentCooldown
    dsimp only
    exact getD_set_ne _ _ _ _ _ (fun h => hb h.symm)
  · intro l r hr
    unfold Combat.setEffectList
    dsimp only
    exact getD_set_ne _ _ _ _ _ (fun h => hr h.symm)

/-- Witness for `C8_clone_fresh_and_independent` at the registered id
"qingyun_sword_qi" (template address 0). -/
theorem C8_witness :
    Combat.registryAddrs.find? (fun q => q.1 = "qingyun_sword_qi") =
      some ("qingyun_sword_qi", 0) ∧
    ((Combat.get_skill "qingyun_sword_qi" Combat.registryHeap).1 =
      some Combat.registryHeap.skills.length ∧
    0 ≠ Combat.registryHeap.skills.length ∧
    (((Combat.get_skill "qingyun_sword_qi" Combat.registryHeap).2).skills.getD
        Combat.registryHeap.skills.length Combat.dummySkillObj).data =
      (Combat.registryHeap.skills.getD 0 Combat.dummySkillObj).data ∧
    ((Combat.get_skill "qingyun_sword_qi" Combat.registryHeap).2).effectLists.getD
        (((Combat.get_skill "qingyun_sword_qi" Combat.registryHeap).2).skills.getD
          Combat.registryHeap.skills.length Combat.dummySkillObj).effectsRef [] =
      Combat.registryHeap.effectLists.getD
        ((Combat.registryHeap.skills.getD 0 Combat.dummySkillObj).effectsRef) [] ∧
    (((Combat.get_skill "qingyun_sword_qi" Combat.registryHeap).2).skills.getD
        Combat.registryHeap.skills.length Combat.dummySkillObj).effectsRef ≠
      (Combat.registryHeap.skills.getD 0 Combat.dummySkillObj).effectsRef ∧
    (∀ b, b < Combat.registryHeap.skills.length →
      ((Combat.get_skill "qingyun_sword_qi" Combat.registryHeap).2).skills.getD b
          Combat.dummySkillObj =
        Combat.registryHeap.skills.getD b Combat.dummySkillObj) ∧
    (∀ (v : ℤ) (b : ℕ), b ≠ Combat.registryHeap.skills.length →
      (Combat.setCurrentCooldown (Combat.get_skill "qingyun_sword_qi" Combat.registryHeap).2
          Combat.registryHeap.skills.length v).skills.getD b Combat.dummySkillObj =
        ((Combat.get_skill "qingyun_sword_qi" Combat.registryHeap).2).skills.getD b
          Combat.dummySkillObj) ∧
    (∀ (l : List Combat.SkillEffect) (r : ℕ),
      r ≠ (((Combat.get_skill "qingyun_sword_qi" Combat.registryHeap).2).skills.getD
          Combat.registryHeap.skills.length Combat.dummySkillObj).effectsRef →
      (Combat.setEffectList (Combat.get_skill "qingyun_sword_qi" Combat.registryHeap).2
          (((Combat.get_skill "qingyun_sword_qi" Combat.registryHeap).2).skills.getD
            Combat.registryHeap.skills.length Combat.dummySkillObj).effectsRef
          l).effectLists.getD r [] =
        ((Combat.get_skill "qingyun_sword_qi" Combat.registryHeap).2).effectLists.getD r
          [])) :=
  ⟨by decide,
   C8_clone_fresh_and_independent "qingyun_sword_qi" ("qingyun_sword_qi", 0)
     (by decide)⟩
theorem getD_set_self {α : Type} (l : List α) (i : ℕ) (x d : α)
    (h : i < l.length) : (l.set i x).getD i d = x := by
  simp [List.getD, List.getElem?_set_self, h]

theorem foldl_invariant {α : Type} {β : Type} (P : β → Prop) (f : β → α → β)
    (hstep : ∀ b a, P b → P (f b a)) :
    ∀ (l : List α) (init : β), P init → P (l.foldl f init) := by
  intro l
  induction l with
  | nil => intro init h; exact h
  | cons a l ih => intro init h; exact ih _ (hstep _ _ h)

namespace Routes

theorem defendMono_refl (s : CombatSession) : DefendMono s s :=
  ⟨rfl, fun _ h => h⟩

theorem defendMono_trans {s₁ s₂ s₃ : CombatSession} (h₁ : DefendMono s₁ s₂)
    (h₂ : DefendMono s₂ s₃) : DefendMono s₁ s₃ :=
  ⟨h₂.1.trans h₁.1, fun i h => h₂.2 i (h₁.2 i h)⟩

theorem defendMono_of_enemies_eq {s s' : CombatSession}
    (h : s'.enemies = s.enemies) : DefendMono s s' :=
  ⟨by rw [h], fun i hh => by rw [h]; exact hh⟩

theorem phaseFrame_refl (s : CombatSession) : PhaseFrame s s :=
  ⟨rfl, rfl, defendMono_refl s⟩

theorem phaseFrame_trans {s₁ s₂ s₃ : CombatSession} (h₁ : PhaseFrame s₁ s₂)
    (h₂ : PhaseFrame s₂ s₃) : PhaseFrame s₁ s₃ :=
  ⟨h₂.1.trans h₁.1, h₂.2.1.trans h₁.2.1, defendMono_trans h₁.2.2 h₂.2.2⟩

theorem phaseFrame_writeEnt (s : CombatSession) (r : EntityRef)
    (u : CombatEntity)
    (h : (readEnt s r).is_defending = true → u.is_defending = true) :
    PhaseFrame s (writeEnt s r u) := by
  cases r with
  | player => exact ⟨rfl, rfl, rfl, fun _ hh => hh⟩
  | enemy i =>
    refine ⟨rfl, rfl, by simp [writeEnt], ?_⟩
    intro j hj
    by_cases hij : i = j
    · subst hij
      by_cases hlt : i < s.enemies.length
      · show ((s.enemies.set i u).getD i dummyEntity).is_defending = true
        rw [getD_set_self _ _ _ _ hlt]
        exact h hj
      · show ((s.enemies.set i u).getD i dummyEntity).is_defending = true
        rw [List.set_eq_of_length_le (le_of_not_lt hlt)]
        exact hj
    · show ((s.enemies.set i u).getD j dummyEntity).is_defending = true
      rw [getD_set_ne _ _ _ _ _ hij]
      exact hj

theorem phaseFrame_appendLog (s : CombatSession) (m : String) :
    PhaseFrame s (appendLog s m) :=
  ⟨rfl, rfl, rfl, fun _ hh => hh⟩

theorem phaseFrame_writeEnt_lift {s s' : CombatSession} (r : EntityRef)
    (u : CombatEntity)
    (hu : (readEnt s' r).is_defending = true → u.is_defending = true)
    (h : PhaseFrame s s') : PhaseFrame s (writeEnt s' r u) :=
  phaseFrame_trans h (phaseFrame_writeEnt s' r u hu)

theorem phaseFrame_appendLog_lift {s s' : CombatSession} (m : String)
    (h : PhaseFrame s s') : PhaseFrame s (appendLog s' m) :=
  phaseFrame_trans h (phaseFrame_appendLog s' m)

theorem phaseFrame_lifesteal_step (aRef : EntityRef) (eff : SkillEffectSpec)
    (damage : ℤ) {s : CombatSession} {acc : SkillResult × CombatSession}
    (h : PhaseFrame s acc.2) :
    PhaseFrame s (lifesteal_step aRef eff damage acc).2 := by
  unfold lifesteal_step
  split
  · exact phaseFrame_writeEnt_lift _ _ (fun hh => hh) h
  · exact h

theorem phaseFrame_stun_step (eff : SkillEffectSpec) (r : EntityRef)
    {s : CombatSession} {acc : SkillResult × CombatSession}
    (h : PhaseFrame s acc.2) : PhaseFrame s (stun_step eff acc r).2 := by
  unfold stun_step
  split
  · exact phaseFrame_writeEnt_lift _ _ (fun hh => hh) h
  · exact h

theorem phaseFrame_slow_step (eff : SkillEffectSpec) (r : EntityRef)
    {s : CombatSession} {acc : SkillResult × CombatSession}
    (h : PhaseFrame s acc.2) : PhaseFrame s (slow_step eff acc r).2 := by
  unfold slow_step
  split
  · exact phaseFrame_writeEnt_lift _ _ (fun hh => hh) h
  · exact h

theorem phaseFrame_dot_step (eff : SkillEffectSpec) (damage : ℤ)
    (r : EntityRef) {s : CombatSession} {acc : SkillResult × CombatSession}
    (h : PhaseFrame s acc.2) : PhaseFrame s (dot_step eff damage acc r).2 := by
  unfold dot_step
  split
  · exact phaseFrame_writeEnt_lift _ _ (fun hh => hh) h
  · exact h

theorem phaseFrame_damage_one_target (aRef : EntityRef)
    (eff : SkillEffectSpec) (acc : SkillResult × CombatSession × ℕ)
    (r : EntityRef) (ρ : ℕ → ℚ) :
    PhaseFrame acc.2.1 (damage_one_target aRef eff acc r ρ).2.1 := by
  unfold damage_one_target
  dsimp only
  split
  · exact phaseFrame_refl _
  · apply phaseFrame_dot_step
    apply phaseFrame_slow_step
    apply phaseFrame_stun_step
    apply phaseFrame_lifesteal_step
    exact phaseFrame_writeEnt _ _ _ (fun hh => hh)

theorem buff_apply_is_defending (eff : SkillEffectSpec)
    (acc : CombatEntity × SkillResult) :
    (buff_apply eff acc).1.is_defending = acc.1.is_defending := by
  unfold buff_apply buff_attack_step buff_defense_step buff_speed_step
    buff_dodge_step
  split <;> split <;> split <;> split <;> rfl

theorem phaseFrame_execute_skill (aRef tRef : EntityRef) (name : String)
    (s : CombatSession) (ρ : ℕ → ℚ) (k : ℕ) :
    PhaseFrame s (execute_skill aRef tRef name s ρ k).2.1 := by
  unfold execute_skill
  dsimp only
  split
  · exact phaseFrame_appendLog_lift _
      (phaseFrame_writeEnt _ _ _ (fun hh => hh))
  split
  · apply phaseFrame_appendLog_lift
    apply phaseFrame_writeEnt_lift _ _ ?_ (phaseFrame_refl s)
    intro hh
    rw [buff_apply_is_defending]
    exact hh
  · apply phaseFrame_appendLog_lift
    refine foldl_invariant (fun acc => PhaseFrame s acc.2.1)
      (fun acc r => damage_one_target aRef (skill_effects name) acc r ρ)
      (fun b a hb => phaseFrame_trans hb (phaseFrame_damage_one_target _ _ _ _ _))
      _ _ ?_
    exact phaseFrame_refl s


theorem phaseFrame_enemy_plain_attack (actions : List EnemyAction)
    (s : CombatSession) (enemy : CombatEntity) (k : ℕ) (ρ : ℕ → ℚ) :
    PhaseFrame s (enemy_plain_attack actions s enemy k ρ).2.1 := by
  unfold enemy_plain_attack
  dsimp only
  exact phaseFrame_appendLog_lift _ (phaseFrame_writeEnt _ _ _ (fun hh => hh))

theorem phaseFrame_enemy_one_turn (acc : List EnemyAction × CombatSession × ℕ)
    (i : ℕ) (ρ : ℕ → ℚ) :
    PhaseFrame acc.2.1 (enemy_one_turn acc i ρ).2.1 := by
  unfold enemy_one_turn
  dsimp only
  split
  · exact phaseFrame_refl _
  split
  · exact phaseFrame_appendLog _ _
  split
  · split
    · split
      · exact phaseFrame_execute_skill _ _ _ _ _ _
      · exact phaseFrame_enemy_plain_attack _ _ _ _ _
    · exact phaseFrame_enemy_plain_attack _ _ _ _ _
  split
  · exact phaseFrame_appendLog_lift _
      (phaseFrame_writeEnt _ _ _ (fun _ => rfl))
  · exact phaseFrame_appendLog _ _

theorem phaseFrame_tick_buffs_entity (s : CombatSession) (r : EntityRef) :
    PhaseFrame s (tick_buffs_entity s r) := by
  unfold tick_buffs_entity
  dsimp only
  split
  · exact phaseFrame_refl _
  · exact phaseFrame_writeEnt _ _ _ (fun hh => hh)

theorem phaseFrame_process_enemy_turn (s : CombatSession) (ρ : ℕ → ℚ)
    (k : ℕ) : PhaseFrame s (process_enemy_turn s ρ k).2.1 := by
  unfold process_enemy_turn
  dsimp only
  refine foldl_invariant (fun s' => PhaseFrame s s') tick_buffs_entity
    (fun b a hb => phaseFrame_trans hb (phaseFrame_tick_buffs_entity _ _)) _ _ ?_
  refine foldl_invariant (fun acc => PhaseFrame s acc.2.1)
    (fun acc i => enemy_one_turn acc i ρ)
    (fun b a hb => phaseFrame_trans hb (phaseFrame_enemy_one_turn _ _ _)) _ _ ?_
  exact phaseFrame_refl s

theorem check_combat_end_enemies (s : CombatSession) :
    (check_combat_end s).2.enemies = s.enemies := by
  unfold check_combat_end
  split_ifs <;> rfl

theorem check_combat_end_player (s : CombatSession) :
    (check_combat_end s).2.player = s.player := by
  unfold check_combat_end
  split_ifs <;> rfl

theorem check_combat_end_turn_count (s : CombatSession) :
    (check_combat_end s).2.turn_count = s.turn_count := by
  unfold check_combat_end
  split_ifs <;> rfl

theorem check_combat_end_status_cases (s : CombatSession) :
    (check_combat_end s).2.status = s.status ∨
    (check_combat_end s).2.status = CombatStatus.defeat ∨
    (check_combat_end s).2.status = CombatStatus.victory := by
  unfold check_combat_end
  split_ifs
  · right; left; rfl
  · right; right; rfl
  · left; rfl

theorem action_finish_turn_count (s : CombatSession)
    (e : Option CombatStatus) (ρ : ℕ → ℚ) (k : ℕ) :
    (action_finish s e ρ k).1.turn_count = s.turn_count + 1 := by
  unfold action_finish
  dsimp only
  split <;> rfl

theorem action_finish_status (s : CombatSession) (e : Option CombatStatus)
    (ρ : ℕ → ℚ) (k : ℕ) : (action_finish s e ρ k).1.status = s.status := by
  unfold action_finish
  dsimp only
  split <;> rfl

theorem action_finish_enemies (s : CombatSession) (e : Option CombatStatus)
    (ρ : ℕ → ℚ) (k : ℕ) : (action_finish s e ρ k).1.enemies = s.enemies := by
  unfold action_finish
  dsimp only
  split <;> rfl

theorem action_tail_turn_count (s : CombatSession) (ρ : ℕ → ℚ) (k : ℕ) :
    (action_tail s ρ k).1.turn_count = s.turn_count + 1 := by
  unfold action_tail
  dsimp only
  split
  · rw [action_finish_turn_count, check_combat_end_turn_count,
      (phaseFrame_process_enemy_turn _ ρ k).1, check_combat_end_turn_count]
  · rw [action_finish_turn_count, check_combat_end_turn_count]

theorem action_tail_status_cases (s : CombatSession) (ρ : ℕ → ℚ) (k : ℕ) :
    (action_tail s ρ k).1.status = s.status ∨
    (action_tail s ρ k).1.status = CombatStatus.defeat ∨
    (action_tail s ρ k).1.status = CombatStatus.victory := by
  unfold action_tail
  dsimp only
  split
  · rw [action_finish_status]
    rcases check_combat_end_status_cases (process_enemy_turn
        (check_combat_end s).2 ρ k).2.1 with h | h | h
    · rw [h, (phaseFrame_process_enemy_turn _ ρ k).2.1]
      exact check_combat_end_status_cases s
    · right; left; exact h
    · right; right; exact h
  · rw [action_finish_status]
    exact check_combat_end_status_cases s

theorem action_tail_defendMono (s : CombatSession) (ρ : ℕ → ℚ) (k : ℕ) :
    DefendMono s (action_tail s ρ k).1 := by
  unfold action_tail
  dsimp only
  split
  · refine defendMono_trans (defendMono_of_enemies_eq
      (check_combat_end_enemies s)) ?_
    refine defendMono_trans (phaseFrame_process_enemy_turn _ ρ k).2.2 ?_
    refine defendMono_trans (defendMono_of_enemies_eq
      (check_combat_end_enemies _)) ?_
    exact defendMono_of_enemies_eq (action_finish_enemies _ _ _ _)
  · refine defendMono_trans (defendMono_of_enemies_eq
      (check_combat_end_enemies s)) ?_
    exact defendMono_of_enemies_eq (action_finish_enemies _ _ _ _)


theorem defendMono_tail_chain {s s' : CombatSession} (ρ : ℕ → ℚ) (k : ℕ)
    (h : DefendMono s s') : DefendMono s (action_tail s' ρ k).1 :=
  defendMono_trans h (action_tail_defendMono s' ρ k)

theorem defendMono_appendLog_lift {s s' : CombatSession} (m : String)
    (h : DefendMono s s') : DefendMono s (appendLog s' m) :=
  defendMono_trans h (defendMono_of_enemies_eq rfl)

theorem defendMono_writeEnt_lift {s s' : CombatSession} (r : EntityRef)
    (u : CombatEntity)
    (hu : (readEnt s' r).is_defending = true → u.is_defending = true)
    (h : DefendMono s s') : DefendMono s (writeEnt s' r u) :=
  defendMono_trans h (phaseFrame_writeEnt s' r u hu).2.2

theorem defendMono_execute_skill_lift {s s' : CombatSession}
    (aRef tRef : EntityRef) (name : String) (ρ : ℕ → ℚ) (k : ℕ)
    (h : DefendMono s s') :
    DefendMono s (execute_skill aRef tRef name s' ρ k).2.1 :=
  defendMono_trans h (phaseFrame_execute_skill aRef tRef name s' ρ k).2.2

theorem execute_action_defendMono (s : CombatSession) (req : ActionRequest)
    (ρ : ℕ → ℚ) (k : ℕ) : DefendMono s (execute_action s req ρ k).2.1 := by
  unfold execute_action
  dsimp only
  split
  · exact defendMono_refl s
  split
  · exact defendMono_refl s
  split
  · -- attack branch
    split
    · exact defendMono_of_enemies_eq rfl
    split
    · exact defendMono_of_enemies_eq rfl
    split
    · exact defendMono_of_enemies_eq rfl
    · exact defendMono_tail_chain ρ _
        (defendMono_appendLog_lift _
          (defendMono_writeEnt_lift _ _ (fun hh => hh)
            (defendMono_of_enemies_eq rfl)))
  split
  · -- skill branch
    split
    · exact defendMono_of_enemies_eq rfl
    split
    · exact defendMono_of_enemies_eq rfl
    split
    · exact defendMono_of_enemies_eq rfl
    split
    · exact defendMono_of_enemies_eq rfl
    · exact defendMono_tail_chain ρ _
        (defendMono_execute_skill_lift _ _ _ _ _
          (defendMono_of_enemies_eq rfl))
  split
  · -- defend branch
    exact defendMono_tail_chain ρ _ (defendMono_of_enemies_eq rfl)
  split
  · -- flee branch
    split
    · exact defendMono_of_enemies_eq rfl
    · exact defendMono_tail_chain ρ _ (defendMono_of_enemies_eq rfl)
  split
  · -- item branch
    exact defendMono_tail_chain ρ _ (defendMono_of_enemies_eq rfl)
  · exact defendMono_tail_chain ρ _ (defendMono_of_enemies_eq rfl)

theorem phaseFrame_auto_plain_attack (s : CombatSession) (i₀ : ℕ)
    (ρ : ℕ → ℚ) (k : ℕ) : PhaseFrame s (auto_plain_attack s i₀ ρ k).1 := by
  unfold auto_plain_attack
  dsimp only
  exact phaseFrame_writeEnt _ _ _ (fun hh => hh)

theorem phaseFrame_auto_player_action (s : CombatSession) (i₀ : ℕ)
    (ρ : ℕ → ℚ) (k : ℕ) : PhaseFrame s (auto_player_action s i₀ ρ k).1 := by
  unfold auto_player_action
  dsimp only
  repeat' split
  all_goals
    first
    | exact phaseFrame_execute_skill _ _ _ _ _ _
    | exact phaseFrame_auto_plain_attack _ _ _ _

theorem auto_loop_defendMono (ρ : ℕ → ℚ) :
    ∀ (n : ℕ) (s : CombatSession) (k : ℕ),
      DefendMono s (auto_loop ρ n s k).1 := by
  intro n
  induction n with
  | zero => intro s k; exact defendMono_refl s
  | succ n ih =>
    intro s k
    unfold auto_loop
    dsimp only
    split
    · exact defendMono_refl s
    split
    · exact defendMono_refl s
    split
    · exact defendMono_trans (phaseFrame_auto_player_action _ _ _ _).2.2
        (defendMono_of_enemies_eq (check_combat_end_enemies _))
    · rename_i i₀ hfind hend
      have h₁ : DefendMono s (auto_player_action s i₀ ρ k).1 :=
        (phaseFrame_auto_player_action s i₀ ρ k).2.2
      have h₂ : DefendMono s
          (check_combat_end (auto_player_action s i₀ ρ k).1).2 :=
        defendMono_trans h₁
          (defendMono_of_enemies_eq (check_combat_end_enemies _))
      have h₃ : DefendMono s (process_enemy_turn
          (check_combat_end (auto_player_action s i₀ ρ k).1).2 ρ
          (auto_player_action s i₀ ρ k).2).2.1 :=
        defendMono_trans h₂ (phaseFrame_process_enemy_turn _ _ _).2.2
      exact defendMono_trans
        (defendMono_trans h₃ (defendMono_of_enemies_eq rfl)) (ih _ _)

theorem auto_loop_turn_count (ρ : ℕ → ℚ) :
    ∀ (n : ℕ) (s : CombatSession) (k : ℕ),
      (auto_loop ρ n s k).1.turn_count ≤ s.turn_count + n := by
  intro n
  induction n with
  | zero => intro s k; simp [auto_loop]
  | succ n ih =>
    intro s k
    unfold auto_loop
    dsimp only
    split
    · dsimp only
      omega
    split
    · dsimp only
      omega
    split
    · rename_i i₀ hfind hend
      have h₁ := (phaseFrame_auto_player_action s i₀ ρ k).1
      have h₂ := check_combat_end_turn_count (auto_player_action s i₀ ρ k).1
      dsimp only
      rw [h₂, h₁]
      omega
    · rename_i i₀ hfind hend
      have h₁ := (phaseFrame_auto_player_action s i₀ ρ k).1
      have h₂ := check_combat_end_turn_count (auto_player_action s i₀ ρ k).1
      have h₃ := (phaseFrame_process_enemy_turn
        (check_combat_end (auto_player_action s i₀ ρ k).1).2 ρ
        (auto_player_action s i₀ ρ k).2).1
      have h₄ := ih ({ (process_enemy_turn
          (check_combat_end (auto_player_action s i₀ ρ k).1).2 ρ
          (auto_player_action s i₀ ρ k).2).2.1 with
        turn_count := (process_enemy_turn
          (check_combat_end (auto_player_action s i₀ ρ k).1).2 ρ
          (auto_player_action s i₀ ρ k).2).2.1.turn_count + 1 } :
          CombatSession)
        (process_enemy_turn
          (check_combat_end (auto_player_action s i₀ ρ k).1).2 ρ
          (auto_player_action s i₀ ρ k).2).2.2
      dsimp only at h₄
      have heq : (process_enemy_turn
          (check_combat_end (auto_player_action s i₀ ρ k).1).2 ρ
          (auto_player_action s i₀ ρ k).2).2.1.turn_count = s.turn_count := by
        rw [h₃, h₂, h₁]
      omega

theorem auto_combat_defendMono (s : CombatSession) (mt : Option ℕ)
    (ρ : ℕ → ℚ) (k : ℕ) : DefendMono s (auto_combat s mt ρ k).2.1 := by
  unfold auto_combat
  dsimp only
  split
  · exact defendMono_refl s
  · exact auto_loop_defendMono ρ _ s k

end Routes
set_option maxHeartbeats 1000000 in
theorem stale_stepA (j k : ℕ) (hj : j < 999) :
    Routes.auto_player_action (stale j) 0 oracle0 k = (staleHit j, k + 2) := by
  have hj' : (j : ℤ) < 999 := by exact_mod_cast hj
  have h₂ : (0 : ℤ) ⊔ (1000 - (j : ℤ) - 1) = 1000 - (j : ℤ) - 1 :=
    max_eq_right (by omega)
  norm_num [Routes.auto_player_action, Routes.auto_plain_attack,
    Routes.calculate_damage, Routes.readEnt, Routes.writeEnt, stale,
    staleHit, probePlayer, probeEnemy, oracle0, pytrunc, List.getD, h₂]

set_option maxHeartbeats 1000000 in
theorem stale_stepC (j : ℕ) (hj : j < 999) :
    Routes.check_combat_end (staleHit j) = (none, staleHit j) := by
  have hj' : (j : ℤ) < 999 := by exact_mod_cast hj
  have h₂ : ¬ ((1000 : ℤ) - (j : ℤ) - 1 ≤ 0) := by omega
  norm_num [Routes.check_combat_end, staleHit, stale, probePlayer,
    probeEnemy, h₂]

set_option maxHeartbeats 1000000 in
theorem stale_stepP (j k : ℕ) (hj : j < 999) :
    Routes.process_enemy_turn (staleHit j) oracle0 k =
      ([], { staleHit j with log := staleLog j ++ ["E 被眩晕，无法行动"] }, k) := by
  have hj' : (j : ℤ) < 999 := by exact_mod_cast hj
  have h₂ : ¬ ((1000 : ℤ) - (j : ℤ) - 1 ≤ 0) := by omega
  norm_num [Routes.process_enemy_turn, Routes.enemy_one_turn,
    Routes.tick_buffs_entity, Routes.readEnt, Routes.writeEnt,
    Routes.appendLog, staleHit, stale, staleLog, probePlayer, probeEnemy,
    oracle0, List.getD, h₂, List.range_succ, List.find?_cons]
  rfl

set_option maxHeartbeats 1000000 in
set_option maxRecDepth 16000 in
theorem stale_step (n j k : ℕ) (hj : j < 999) :
    Routes.auto_loop oracle0 (n + 1) (stale j) k =
      Routes.auto_loop oracle0 n (stale (j + 1)) (k + 2) := by
  have hj' : (j : ℤ) < 999 := by exact_mod_cast hj
  have h₁ : (0 : ℤ) < 1000 - (j : ℤ) := by omega
  have hfind : (stale j).enemies.findIdx? (fun e => e.hp > 0) = some 0 := by
    simp [stale, probeEnemy, List.findIdx?_cons, h₁]
  conv_lhs => rw [Routes.auto_loop]
  rw [if_neg (by simp [stale]), hfind]
  dsimp only
  simp only [stale_stepA j k hj, stale_stepC j hj, stale_stepP j (k + 2) hj,
    Option.isSome_none, Bool.false_eq_true, if_false]
  congr 1
  simp [stale, staleHit, staleLog, List.replicate_succ']
  omega

/-- Iterating `stale_step`: `n` auto-rounds move the stalemate family
forward `n` indices and consume two draws per round. -/
theorem stale_loop (n j k : ℕ) (h : j + n ≤ 999) :
    Routes.auto_loop oracle0 n (stale j) k = (stale (j + n), k + 2 * n) := by
  induction n generalizing j k with
  | zero => simp [Routes.auto_loop]
  | succ m ih =>
    rw [stale_step m j k (by omega), ih (j + 1) (k + 2) (by omega)]
    have e₁ : j + 1 + m = j + (m + 1) := by omega
    have e₂ : k + 2 + 2 * m = k + 2 * (m + 1) := by omega
    rw [e₁, e₂]

/-- **C3** (counterexample): on the stalemate session the default 50-round
cap is exhausted while the fight is still active, and the auto endpoint
reports the verbatim status `active` — there is no distinct timeout
outcome. -/
theorem C3_counterexample :
    Routes.auto_combat (stale 0) none oracle0 0 =
      (.ok { status := .active, turns := 50, log := staleLog 50 },
       stale 50, 100) := by
  have h := stale_loop 50 0 0 (by omega)
  norm_num at h
  unfold Routes.auto_combat
  rw [if_neg (by simp [stale])]
  simp only [Option.getD_none, h]
  simp [stale, staleLog]

/-- **C3** (amended): `auto_combat` is a total function that runs at most
`max_turns` (default 50) rounds — the final turn counter exceeds the
starting one by at most the cap — and on an active session it always
reports `.ok` with the final session's status and turn count verbatim;
there is no distinct timeout outcome, a capped-but-unfinished fight is
reported as `active`.  A non-active session is rejected unchanged. -/
theorem C3_auto_cap_and_report (s : Routes.CombatSession)
    (mt? : Option ℕ) (ρ : ℕ → ℚ) (k : ℕ) :
    ((Routes.auto_combat s mt? ρ k).2.1.turn_count
        ≤ s.turn_count + (mt?.getD 50 : ℕ)) ∧
    (s.status = .active →
      ∃ r, (Routes.auto_combat s mt? ρ k).1 = .ok r ∧
        r.status = (Routes.auto_combat s mt? ρ k).2.1.status ∧
        r.turns = (Routes.auto_combat s mt? ρ k).2.1.turn_count) ∧
    (s.status ≠ .active →
      Routes.auto_combat s mt? ρ k = (.notActive s.status, s, k)) := by
  by_cases h : s.status = Routes.CombatStatus.active
  · refine ⟨?_, fun _ => ?_, fun hn => absurd h hn⟩
    · unfold Routes.auto_combat
      rw [if_neg (by simp [h])]
      exact Routes.auto_loop_turn_count ρ _ s k
    · unfold Routes.auto_combat
      rw [if_neg (by simp [h])]
      exact ⟨_, rfl, rfl, rfl⟩
  · refine ⟨?_, fun ha => absurd ha h, fun _ => ?_⟩
    · unfold Routes.auto_combat
      rw [if_pos (by simp [h])]
      dsimp only
      omega
    · unfold Routes.auto_combat
      rw [if_pos (by simp [h])]

theorem C3_witness :
    (Routes.auto_combat (stale 0) none oracle0 0).2.1.turn_count ≤
      (stale 0).turn_count + ((none : Option ℕ).getD 50 : ℕ) :=
  (C3_auto_cap_and_report (stale 0) none oracle0 0).1

/-- **C5**: VICTORY, DEFEAT and FLED are terminal.  Any action request
against a non-active session is rejected with the current status and the
session (and draw counter) unchanged; the auto endpoint rejects likewise;
and no sequence of action/auto calls ever mutates a session that has left
ACTIVE. -/
theorem C5_terminal_no_transition (s : Routes.CombatSession)
    (req : Routes.ActionRequest) (ρ : ℕ → ℚ) (k : ℕ) (mt? : Option ℕ)
    (cs : List Routes.ApiCall) (h : s.status ≠ .active) :
    Routes.execute_action s req ρ k = (.notActive s.status, s, k) ∧
    Routes.auto_combat s mt? ρ k = (.notActive s.status, s, k) ∧
    Routes.runCalls s cs ρ k = (s, k) := by
  have hact : ∀ (req : Routes.ActionRequest) (k : ℕ),
      Routes.execute_action s req ρ k = (.notActive s.status, s, k) := by
    intro req k
    unfold Routes.execute_action
    rw [if_pos h]
  have hauto : ∀ (mt? : Option ℕ) (k : ℕ),
      Routes.auto_combat s mt? ρ k = (.notActive s.status, s, k) := by
    intro mt k
    unfold Routes.auto_combat
    rw [if_pos h]
  have hrun : ∀ (cs : List Routes.ApiCall) (k : ℕ),
      Routes.runCalls s cs ρ k = (s, k) := by
    intro cs
    induction cs with
    | nil => intro k; rfl
    | cons c cs ih =>
      intro k
      have hstep : Routes.apiStep s c ρ k = (s, k) := by
        cases c with
        | action req => simp [Routes.apiStep, hact]
        | auto mt => simp [Routes.apiStep, hauto]
      have h' := ih k
      unfold Routes.runCalls at h' ⊢
      rw [List.foldl_cons]
      dsimp only
      rw [hstep]
      exact h'
  exact ⟨hact req k, hauto mt? k, hrun cs k⟩

theorem C5_witness :
    Routes.execute_action probeFledSession { action_type := "attack" }
        oracle0 0 =
      (.notActive probeFledSession.status, probeFledSession, 0) :=
  (C5_terminal_no_transition probeFledSession { action_type := "attack" }
    oracle0 0 none [.action { action_type := "attack" }]
    (by decide)).1

/-- **C6** (refutation): the hp invariant `0 ≤ hp ≤ max_hp` is not
preserved by item healing.  Starting from a player at 10/100 hp (the
invariant holds), one item action with `heal_amount = -100` — the route
reads the amount from the request body unvalidated — drives the player's
hp to −90. -/
theorem C6_item_negative_heal_eval :
    probeItemSession.player.hp = 10 ∧
    probeItemSession.player.max_hp = 100 ∧
    (Routes.execute_action probeItemSession
        { action_type := "item", heal_amount := some (-100) }
        oracle0 0).2.1.player.hp = -90 := by
  refine ⟨rfl, rfl, ?_⟩
  decide

/-- **C7**: the flee action succeeds exactly when the draw is below
`0.5 + speed/200`.  Success sets status FLED, appends only the flee log
entry and returns immediately — no enemy phase, no turn-count change.
Failure answers `ok false`, never yields FLED, and the opposing phase
runs (the turn counter advances by one).  At speed 200 every draw in
`[0,1)` succeeds. -/
theorem C7_flee (s : Routes.CombatSession) (req : Routes.ActionRequest)
    (ρ : ℕ → ℚ) (k : ℕ) (hs : s.status = .active) (hhp : 0 < s.player.hp)
    (hr : req.action_type = "flee") :
    (ρ k < 1/2 + (s.player.speed : ℚ) / 200 →
      Routes.execute_action s req ρ k =
        (.fledOk,
         { s with
           player := { s.player with is_defending := false },
           status := .fled,
           log := s.log ++ [s.player.name ++ " 成功逃脱了战斗"] },
         k + 1)) ∧
    (¬ ρ k < 1/2 + (s.player.speed : ℚ) / 200 →
      (Routes.execute_action s req ρ k).1 = .ok false ∧
      (Routes.execute_action s req ρ k).2.1.status ≠ .fled ∧
      (Routes.execute_action s req ρ k).2.1.turn_count = s.turn_count + 1) ∧
    (s.player.speed = 200 → ρ k < 1 →
      (Routes.execute_action s req ρ k).2.1.status = .fled) := by
  have hsucc : ρ k < 1/2 + (s.player.speed : ℚ) / 200 →
      Routes.execute_action s req ρ k =
        (.fledOk,
         { s with
           player := { s.player with is_defending := false },
           status := .fled,
           log := s.log ++ [s.player.name ++ " 成功逃脱了战斗"] },
         k + 1) := by
    intro h
    unfold Routes.execute_action
    rw [if_neg (by simp [hs]), if_neg (not_le.mpr hhp)]
    dsimp only
    rw [hr]
    rw [if_neg (by decide : ¬ ("flee" : String) = "attack"),
      if_neg (by decide : ¬ ("flee" : String) = "skill"),
      if_neg (by decide : ¬ ("flee" : String) = "defend"),
      if_pos rfl, if_pos h]
    rfl
  have hfail : ¬ ρ k < 1/2 + (s.player.speed : ℚ) / 200 →
      (Routes.execute_action s req ρ k).1 = .ok false ∧
      (Routes.execute_action s req ρ k).2.1.status ≠ .fled ∧
      (Routes.execute_action s req ρ k).2.1.turn_count = s.turn_count + 1 := by
    intro h
    unfold Routes.execute_action
    rw [if_neg (by simp [hs]), if_neg (not_le.mpr hhp)]
    dsimp only
    rw [hr]
    rw [if_neg (by decide : ¬ ("flee" : String) = "attack"),
      if_neg (by decide : ¬ ("flee" : String) = "skill"),
      if_neg (by decide : ¬ ("flee" : String) = "defend"),
      if_pos rfl, if_neg h]
    refine ⟨rfl, ?_, ?_⟩
    · rcases Routes.action_tail_status_cases
          (Routes.appendLog
            { s with player := { s.player with is_defending := false } }
            (s.player.name ++ " 逃跑失败")) ρ (k + 1) with h' | h' | h'
      · dsimp only
        rw [h']
        simp [Routes.appendLog, hs]
      · dsimp only
        rw [h']
        decide
      · dsimp only
        rw [h']
        decide
    · dsimp only
      rw [Routes.action_tail_turn_count]
      rfl
  refine ⟨hsucc, hfail, fun hsp h1 => ?_⟩
  rw [hsucc (by rw [hsp]; norm_num; linarith)]

theorem C7_witness :
    (Routes.execute_action probeFastSession { action_type := "flee" }
        oracle0 0).2.1.status = .fled :=
  (C7_flee probeFastSession { action_type := "flee" } oracle0 0 rfl
    (by decide) rfl).2.2 rfl (by norm_num [oracle0])

theorem apiStep_defendMono (s : Routes.CombatSession) (c : Routes.ApiCall)
    (ρ : ℕ → ℚ) (k : ℕ) : Routes.DefendMono s (Routes.apiStep s c ρ k).1 := by
  cases c with
  | action req => exact Routes.execute_action_defendMono s req ρ k
  | auto mt => exact Routes.auto_combat_defendMono s mt ρ k

theorem runCalls_defendMono (s : Routes.CombatSession)
    (cs : List Routes.ApiCall) (ρ : ℕ → ℚ) (k : ℕ) :
    Routes.DefendMono s (Routes.runCalls s cs ρ k).1 := by
  unfold Routes.runCalls
  exact foldl_invariant (fun acc : Routes.CombatSession × ℕ =>
    Routes.DefendMono s acc.1) _
    (fun acc c hacc =>
      Routes.defendMono_trans hacc (apiStep_defendMono acc.1 c ρ acc.2))
    cs (s, k) (Routes.defendMono_refl s)

/-- **C10**: an enemy's `is_defending` flag is never cleared — only the
player's is, at the start of each action.  Once an enemy is defending it
stays defending across every subsequent action/auto call, and every hit
against a defending entity floor-halves the mitigated base damage before
crit and jitter. -/
theorem C10_enemy_defend_persists (s : Routes.CombatSession) (i : ℕ)
    (cs : List Routes.ApiCall) (ρ : ℕ → ℚ) (k : ℕ)
    (h : (s.enemies.getD i Routes.dummyEntity).is_defending = true) :
    ((Routes.runCalls s cs ρ k).1.enemies.getD i
        Routes.dummyEntity).is_defending = true ∧
    ∀ (a d : Routes.CombatEntity) (m : ℚ) (k' : ℕ),
      d.is_defending = true →
      Routes.calculate_damage a d m ρ k' =
        (max 1 (pytrunc
          ((((if ρ k' < 15/100 then
              pytrunc (((Int.fdiv
                (max 1 (a.attack - Int.fdiv d.defense 2)) 2 : ℤ) : ℚ) * (3/2))
            else
              Int.fdiv (max 1 (a.attack - Int.fdiv d.defense 2)) 2) : ℤ) : ℚ)
            * m * (9/10 + (2/10) * ρ (k' + 1)))),
         k' + 2) := by
  refine ⟨(runCalls_defendMono s cs ρ k).2 i h, ?_⟩
  intro a d m k' hd
  unfold Routes.calculate_damage
  dsimp only
  rw [if_pos hd]

theorem C10_witness :
    ((Routes.runCalls probeDefendSession
        [.action { action_type := "defend" }] oracle0 0).1.enemies.getD 0
      Routes.dummyEntity).is_defending = true :=
  (C10_enemy_defend_persists probeDefendSession 0
    [.action { action_type := "defend" }] oracle0 0 (by decide)).1
